import Mathlib

/-!
Verification of the file-conversion pipeline of `svg-to-ts`
(`src/lib/converters/files.converter.ts`).

The pipeline is embedded shallowly as a pure, trace-producing interpreter:

* external string-producing collaborators (code-snippet generators, glob
  resolution) are fields of a `Collab` record — pure functions, as the spec
  treats them;
* the file-system / ingestion boundary is a `World` record deciding which
  operations succeed; every performed side effect is recorded as an `Event`;
* each stage returns `Res α = List Event × Option α`: the events it emitted
  (successful operations only) and `some` result on success, `none` on
  failure; `bindRes` sequences stages and aborts on failure, mirroring the
  un-caught promise rejections of the source;
* the concurrent per-icon fan-out (`Promise.all` over `map`) is modelled by
  its sequential input-order schedule; the stage result is produced only when
  every write succeeded, exactly as `Promise.all` resolves only when every
  promise resolved;
* the in-place TSX mutation of `SvgDefinition.variableName` is modelled by
  the TSX stage returning the updated definition list alongside the generated
  file names; the orchestrator threads the updated list into later stages;
* `callAndMonitor` / `callAndMonitorAsync` wrappers are timing-only and alter
  neither results nor control flow, so they are transparent here;
  `Logger.verboseInfo` lines are kept as `logInfoEv` events.

TypeScript optional string fields (`modelFileName`, `additionalModelOutputPath`)
are plain strings here, "not configured" being the empty string — matching
the truthiness tests `if (modelFileName)` / `if (additionalModelOutputPath)`
in the source.
-/

/-- File kind tag passed to the `writeFile` collaborator. The source imports
`FILE_TYPE` from `shared/file-type.model`; the spec says the TSX path tags its
writes with a TSX kind so the writer applies the correct extension, and plain
TypeScript is the default. -/
inductive FILE_TYPE where
  | TS
  | TSX
deriving DecidableEq, Repr

/-- One discovered SVG input (`SvgDefinition` from `shared.converter`).
`prefixName` embeds the source field `prefix` (a Lean keyword). -/
structure SvgDefinition where
  variableName : String
  typeName : String
  filenameWithoutEnding : String
  prefixName : String
  data : String
deriving DecidableEq, Repr

/-- Embeds `FilesConversionOptions`: the configuration record consumed by
`convertToFiles`. `compilationOutput` is the string value of the
`SVG_TO_TS_COMPILATION_OUTPUT` enum. -/
structure FilesConversionOptions where
  outputDirectory : String
  modelFileName : String
  additionalModelOutputPath : String
  iconsFolderName : String
  interfaceName : String
  compileSources : Bool
  exportCompleteIconSet : Bool
  completeIconSetName : String
  compilationOutput : String
  barrelFileName : String
  generateType : Bool
  tsx : Bool
deriving DecidableEq, Repr

/-- Modelled from the spec: the `SVG_TO_TS_COMPILATION_OUTPUT` enum is declared
in `options/conversion-options/files-conversion-options` (not under `src/`);
the spec names its three values ESM, UMD and ESM_AND_UMD. They are embedded as
distinct strings, matching a TypeScript string enum. -/
def SVG_TO_TS_COMPILATION_OUTPUT.ESM : String := "ESM"

/-- Modelled from the spec: the UMD value of the compilation-output enum. -/
def SVG_TO_TS_COMPILATION_OUTPUT.UMD : String := "UMD"

/-- Modelled from the spec: the ESM_AND_UMD value of the compilation-output
enum. -/
def SVG_TO_TS_COMPILATION_OUTPUT.ESM_AND_UMD : String := "ESM_AND_UMD"

/-- Observable side effects of the pipeline, in emission order. -/
inductive Event where
  | deleteFolderEv (path : String)
  | processSvgsEv
  | writeFileEv (filePath fileName fileContent : String) (fileType : FILE_TYPE)
  | deleteFilesEv (paths : List String)
  | compileEsNextEv (paths : List String) (outputDir : String)
  | compileUMDEv (paths : List String) (outputDir : String)
  | logInfoEv (message : String)
  | logErrorEv (message : String)
  | logSuccessEv (outputDir : String)
deriving DecidableEq, Repr

/-- The pure external collaborators (code-snippet generators and glob
resolution), as the spec's fixed contracts describe them. -/
structure Collab where
  generateSvgConstant : String → String → String → String
  generateTSXConstant : String → String → String
  generateCompleteIconSetContent :
    List SvgDefinition → String → String → String → Bool → Bool → String
  generateTypeHelperWithImport : String → String → String → String
  generateExportStatement : String → String → String
  generateTypeDefinition : FilesConversionOptions → List SvgDefinition → String
  generateEnumDefinition : FilesConversionOptions → List SvgDefinition → String
  generateInterfaceDefinition : FilesConversionOptions → String
  getFilePathsFromRegex : List String → List String

/-- The fallible I/O boundary: which operations succeed, and what the SVG
ingestion (`filesProcessor`) returns (`none` models its rejection). -/
structure World where
  deleteFolderOk : String → Bool
  filesProcessorResult : Option (List SvgDefinition)
  writeFileOk : String → String → Bool

/-- Result of a pipeline fragment: emitted events plus `some` value on
success, `none` when the fragment failed (rejected). -/
abbrev Res (α : Type) := List Event × Option α

/-- Sequencing of pipeline fragments: on failure of the first fragment the
second never runs (an un-caught rejection aborts everything downstream). -/
def bindRes {α β : Type} (x : Res α) (f : α → Res β) : Res β :=
  match x with
  | (evs, none) => (evs, none)
  | (evs, some a) =>
    let y := f a
    (evs ++ y.1, y.2)

/-- A fragment that succeeds immediately with a value and no effect. -/
def okRes {α : Type} (a : α) : Res α := ([], some a)

/-- A fragment that emits one event and succeeds. -/
def emitRes (e : Event) : Res Unit := ([e], some ())

/-- The `deleteFolder` helper call: fallible, awaited by the orchestrator. -/
def deleteFolderOp (w : World) (path : String) : Res Unit :=
  if w.deleteFolderOk path then ([Event.deleteFolderEv path], some ()) else ([], none)

/-- The `writeFile` helper call: fallible; records directory, file name, content
and file kind. The source's optional `fileType` parameter defaults to plain
TypeScript, so call sites that omit it pass `FILE_TYPE.TS` here. -/
def writeFileOp (w : World) (filePath fileName fileContent : String) (fileType : FILE_TYPE) :
    Res Unit :=
  if w.writeFileOk filePath fileName then
    ([Event.writeFileEv filePath fileName fileContent fileType], some ())
  else ([], none)

/-- The `filesProcessor(conversionOptions)` call: SVG ingestion, fallible. -/
def filesProcessorOp (w : World) : Res (List SvgDefinition) :=
  match w.filesProcessorResult with
  | some svgDefinitions => ([Event.processSvgsEv], some svgDefinitions)
  | none => ([], none)

/-- The derived per-icon output file name
`${svgDefinition.prefix}-${svgDefinition.filenameWithoutEnding}.icon`. -/
def iconFileName (svgDefinition : SvgDefinition) : String :=
  svgDefinition.prefixName ++ "-" ++ svgDefinition.filenameWithoutEnding ++ ".icon"

/-- Embeds `generateSVGConstants` (source lines 118–134): for each definition build
the constant via the collaborator, derive the file name, record it, and write
the file under `${outputDirectory}/${iconsFolderName}`; the name list is
returned only once every write settled successfully (`Promise.all`). -/
def generateSVGConstants (co : Collab) (w : World) (svgDefinitions : List SvgDefinition)
    (outputDirectory iconsFolderName : String) : Res (List String) :=
  match svgDefinitions with
  | [] => okRes []
  | svgDefinition :: rest =>
    let svgConstant :=
      co.generateSvgConstant svgDefinition.variableName svgDefinition.typeName svgDefinition.data
    let generatedFileName := iconFileName svgDefinition
    bindRes (writeFileOp w (outputDirectory ++ "/" ++ iconsFolderName) generatedFileName
        svgConstant FILE_TYPE.TS) (fun _ =>
      bindRes (emitRes (Event.logInfoEv ("write file svg: " ++ outputDirectory ++ "/" ++
          iconsFolderName ++ "/" ++ generatedFileName ++ ".ts"))) (fun _ =>
        bindRes (generateSVGConstants co w rest outputDirectory iconsFolderName)
          (fun generatedFileNames => okRes (generatedFileName :: generatedFileNames))))

/-- The TSX variable-name normalization
`variableName.charAt(0).toUpperCase() + variableName.slice(1)`. -/
def capitalize (s : String) : String :=
  match s.toList with
  | [] => ""
  | c :: cs => String.mk (Char.toUpper c :: cs)

/-- The in-place mutation performed on an `SvgDefinition` by the TSX path:
only `variableName` is replaced, by its capitalized form. -/
def capitalizeDef (svgDefinition : SvgDefinition) : SvgDefinition :=
  ⟨capitalize svgDefinition.variableName, svgDefinition.typeName,
    svgDefinition.filenameWithoutEnding, svgDefinition.prefixName, svgDefinition.data⟩

/-- Embeds `generateTSXFileConstants` (source lines 136–155): as the SVG stage, but
the variable name is first capitalized in place (modelled by also returning
the updated definition list), the content comes from the TSX collaborator,
and the write carries the TSX file kind. -/
def generateTSXFileConstants (co : Collab) (w : World) (svgDefinitions : List SvgDefinition)
    (outputDirectory iconsFolderName : String) : Res (List String × List SvgDefinition) :=
  match svgDefinitions with
  | [] => okRes ([], [])
  | svgDefinition :: rest =>
    let mutated := capitalizeDef svgDefinition
    let tsxConstant := co.generateTSXConstant mutated.variableName mutated.data
    let generatedFileName := iconFileName mutated
    bindRes (writeFileOp w (outputDirectory ++ "/" ++ iconsFolderName) generatedFileName
        tsxConstant FILE_TYPE.TSX) (fun _ =>
      bindRes (emitRes (Event.logInfoEv ("write file svg: " ++ outputDirectory ++ "/" ++
          iconsFolderName ++ "/" ++ generatedFileName ++ ".tsx"))) (fun _ =>
        bindRes (generateTSXFileConstants co w rest outputDirectory iconsFolderName)
          (fun p => okRes (generatedFileName :: p.1, mutated :: p.2))))

/-- Embeds `generateCompleteIconSet` (source lines 157–176): build the aggregate
content from the full definition list and the model-related flags, write it
into the icons folder under the complete-icon-set name. -/
def generateCompleteIconSet (co : Collab) (w : World) (svgDefinitions : List SvgDefinition)
    (outputDirectory iconsFolderName completeIconSetName interfaceName modelFileName : String)
    (generateType tsx : Bool) : Res Unit :=
  let completeIconSetContent := co.generateCompleteIconSetContent svgDefinitions
    completeIconSetName interfaceName modelFileName generateType tsx
  writeFileOp w (outputDirectory ++ "/" ++ iconsFolderName) completeIconSetName
    completeIconSetContent FILE_TYPE.TS

/-- The model file's textual content: the concatenation
`${typeDefinition}${interfaceDefinition}${enumDefinition}` (source line 187). -/
def modelFileContent (co : Collab) (conversionOptions : FilesConversionOptions)
    (svgDefinitions : List SvgDefinition) : String :=
  co.generateTypeDefinition conversionOptions svgDefinitions
    ++ co.generateInterfaceDefinition conversionOptions
    ++ co.generateEnumDefinition conversionOptions svgDefinitions

/-- Embeds `generateModelFile` (source lines 178–200): write the concatenated model
content into the icons folder; when an additional output path is configured,
write the identical content there too; return the content. -/
def generateModelFile (co : Collab) (w : World) (conversionOptions : FilesConversionOptions)
    (svgDefinitions : List SvgDefinition) : Res String :=
  let outputDirectory := conversionOptions.outputDirectory
  let modelFileName := conversionOptions.modelFileName
  let additionalModelOutputPath := conversionOptions.additionalModelOutputPath
  let iconsFolderName := conversionOptions.iconsFolderName
  let modelFile := modelFileContent co conversionOptions svgDefinitions
  bindRes (writeFileOp w (outputDirectory ++ "/" ++ iconsFolderName) modelFileName
      modelFile FILE_TYPE.TS) (fun _ =>
    bindRes (emitRes (Event.logInfoEv ("model-file successfully generated under " ++
        outputDirectory ++ "/" ++ iconsFolderName ++ "/" ++ modelFileName ++ ".ts"))) (fun _ =>
      if additionalModelOutputPath ≠ "" then
        bindRes (writeFileOp w additionalModelOutputPath modelFileName modelFile
            FILE_TYPE.TS) (fun _ =>
          bindRes (emitRes (Event.logInfoEv
              ("additional model-file successfully generated under " ++
                additionalModelOutputPath ++ "/" ++ modelFileName ++ ".ts"))) (fun _ =>
            okRes modelFile))
      else okRes modelFile))

/-- The error message of the dispatcher's default branch (source lines
228–229), with the template literal's embedded newline and indentation. -/
def invalidCompilationOutputMessage (compilationOutput : String) : String :=
  "Please provide a valid Compilation output. You provided " ++ compilationOutput ++
    " but \n            valid values are (ESM, UMD, ESM_AND_UMD)."

/-- Embeds `compileTypeScriptToJS` (source lines 202–232): resolve the generated
TypeScript paths (icons-folder `*.ts` and the barrel file), then dispatch on
the compilation-output value; the default branch only logs an error. -/
def compileTypeScriptToJS (co : Collab) (w : World)
    (outputDirectory iconsFolderName barrelFileName compilationOutput : String) : Res Unit :=
  let generatedTypeScriptFilePaths := co.getFilePathsFromRegex
    [outputDirectory ++ "/" ++ iconsFolderName ++ "/*.ts",
     outputDirectory ++ "/" ++ barrelFileName ++ ".ts"]
  if compilationOutput = SVG_TO_TS_COMPILATION_OUTPUT.ESM then
    bindRes (emitRes (Event.compileEsNextEv generatedTypeScriptFilePaths outputDirectory))
      (fun _ => emitRes (Event.deleteFilesEv generatedTypeScriptFilePaths))
  else if compilationOutput = SVG_TO_TS_COMPILATION_OUTPUT.UMD then
    bindRes (emitRes (Event.compileUMDEv generatedTypeScriptFilePaths outputDirectory))
      (fun _ => emitRes (Event.deleteFilesEv generatedTypeScriptFilePaths))
  else if compilationOutput = SVG_TO_TS_COMPILATION_OUTPUT.ESM_AND_UMD then
    bindRes (emitRes (Event.compileEsNextEv generatedTypeScriptFilePaths
        (outputDirectory ++ "/esm"))) (fun _ =>
      bindRes (emitRes (Event.compileUMDEv generatedTypeScriptFilePaths
          (outputDirectory ++ "/umd"))) (fun _ =>
        bindRes (emitRes (Event.deleteFilesEv generatedTypeScriptFilePaths)) (fun _ =>
          deleteFolderOp w (outputDirectory ++ "/build"))))
  else
    emitRes (Event.logErrorEv (invalidCompilationOutputMessage compilationOutput))

/-- The barrel (index) file content (source lines 80–89): the type-helper
import, one export statement per generated file name resolved against the
icons folder, and — unconditionally — an export statement for the model file
name. -/
def buildIndexFileContent (co : Collab) (generatedFileNames : List String)
    (interfaceName iconsFolderName modelFileName : String) : String :=
  co.generateTypeHelperWithImport interfaceName iconsFolderName modelFileName
    ++ String.join (generatedFileNames.map
        (fun generatedFileName => co.generateExportStatement generatedFileName iconsFolderName))
    ++ co.generateExportStatement modelFileName iconsFolderName

/-- Embeds `convertToFiles` (source lines 24–116): the pipeline orchestrator. The
constant-generation stage yields both the generated names and the definition
list later stages see (identical to the input except on the TSX path, whose
in-place mutation is threaded through explicitly). -/
def convertToFiles (co : Collab) (w : World)
    (conversionOptions : FilesConversionOptions) : Res Unit :=
  let outputDirectory := conversionOptions.outputDirectory
  let modelFileName := conversionOptions.modelFileName
  let additionalModelOutputPath := conversionOptions.additionalModelOutputPath
  let iconsFolderName := conversionOptions.iconsFolderName
  let interfaceName := conversionOptions.interfaceName
  let compileSources := conversionOptions.compileSources
  let exportCompleteIconSet := conversionOptions.exportCompleteIconSet
  let completeIconSetName := conversionOptions.completeIconSetName
  let compilationOutput := conversionOptions.compilationOutput
  let barrelFileName := conversionOptions.barrelFileName
  let generateType := conversionOptions.generateType
  let tsx := conversionOptions.tsx
  bindRes (deleteFolderOp w (outputDirectory ++ "/" ++ iconsFolderName)) (fun _ =>
  bindRes (filesProcessorOp w) (fun svgDefinitions =>
  bindRes (if tsx then
      generateTSXFileConstants co w svgDefinitions outputDirectory iconsFolderName
    else
      bindRes (generateSVGConstants co w svgDefinitions outputDirectory iconsFolderName)
        (fun generatedFileNames => okRes (generatedFileNames, svgDefinitions)))
    (fun stageResult =>
  let svgDefinitionsAfter := stageResult.2
  bindRes (if exportCompleteIconSet then
      bindRes (generateCompleteIconSet co w svgDefinitionsAfter outputDirectory iconsFolderName
          completeIconSetName interfaceName modelFileName generateType tsx)
        (fun _ => okRes (stageResult.1 ++ [completeIconSetName]))
    else okRes stageResult.1) (fun generatedFileNames =>
  let indexFileContent :=
    buildIndexFileContent co generatedFileNames interfaceName iconsFolderName modelFileName
  bindRes (writeFileOp w outputDirectory barrelFileName indexFileContent FILE_TYPE.TS) (fun _ =>
  bindRes (if modelFileName ≠ "" then
      bindRes (generateModelFile co w conversionOptions svgDefinitionsAfter) (fun modelFile =>
        if additionalModelOutputPath ≠ "" then
          writeFileOp w additionalModelOutputPath modelFileName modelFile FILE_TYPE.TS
        else okRes ())
    else okRes ()) (fun _ =>
  bindRes (if compileSources then
      compileTypeScriptToJS co w outputDirectory iconsFolderName barrelFileName compilationOutput
    else okRes ()) (fun _ =>
  emitRes (Event.logSuccessEv outputDirectory))))))))

/-! Section: expected traces of successful stages. -/

/-- The events a fully successful SVG-constant stage emits, in order. -/
def svgStageEvents (co : Collab) (outputDirectory iconsFolderName : String) :
    List SvgDefinition → List Event
  | [] => []
  | svgDefinition :: rest =>
      Event.writeFileEv (outputDirectory ++ "/" ++ iconsFolderName) (iconFileName svgDefinition)
          (co.generateSvgConstant svgDefinition.variableName svgDefinition.typeName
            svgDefinition.data) FILE_TYPE.TS
        :: Event.logInfoEv ("write file svg: " ++ outputDirectory ++ "/" ++ iconsFolderName ++
            "/" ++ iconFileName svgDefinition ++ ".ts")
        :: svgStageEvents co outputDirectory iconsFolderName rest

/-- The events a fully successful TSX-constant stage emits, in order. -/
def tsxStageEvents (co : Collab) (outputDirectory iconsFolderName : String) :
    List SvgDefinition → List Event
  | [] => []
  | svgDefinition :: rest =>
      Event.writeFileEv (outputDirectory ++ "/" ++ iconsFolderName) (iconFileName svgDefinition)
          (co.generateTSXConstant (capitalize svgDefinition.variableName) svgDefinition.data)
          FILE_TYPE.TSX
        :: Event.logInfoEv ("write file svg: " ++ outputDirectory ++ "/" ++ iconsFolderName ++
            "/" ++ iconFileName svgDefinition ++ ".tsx")
        :: tsxStageEvents co outputDirectory iconsFolderName rest

/-- The definition list later pipeline stages observe: unchanged in SVG mode,
capitalized in place on the TSX path. -/
def defsAfterConstantStage (o : FilesConversionOptions) (svgDefinitions : List SvgDefinition) :
    List SvgDefinition :=
  if o.tsx then svgDefinitions.map capitalizeDef else svgDefinitions

/-- Events of the constant-generation stage (mode-dependent). -/
def constantsStageEvents (co : Collab) (o : FilesConversionOptions)
    (svgDefinitions : List SvgDefinition) : List Event :=
  if o.tsx then tsxStageEvents co o.outputDirectory o.iconsFolderName svgDefinitions
  else svgStageEvents co o.outputDirectory o.iconsFolderName svgDefinitions

/-- Events of the optional complete-icon-set stage. -/
def completeIconSetEvents (co : Collab) (o : FilesConversionOptions)
    (svgDefinitions : List SvgDefinition) : List Event :=
  if o.exportCompleteIconSet then
    [Event.writeFileEv (o.outputDirectory ++ "/" ++ o.iconsFolderName) o.completeIconSetName
      (co.generateCompleteIconSetContent svgDefinitions o.completeIconSetName o.interfaceName
        o.modelFileName o.generateType o.tsx) FILE_TYPE.TS]
  else []

/-- The `generatedFileNames` sequence handed to barrel assembly: one derived
name per definition, plus the complete-icon-set name when that stage ran. -/
def generatedNames (o : FilesConversionOptions) (svgDefinitions : List SvgDefinition) :
    List String :=
  svgDefinitions.map iconFileName ++
    (if o.exportCompleteIconSet then [o.completeIconSetName] else [])

/-- Events of a fully successful `generateModelFile` call. -/
def modelStageEvents (co : Collab) (o : FilesConversionOptions)
    (svgDefinitions : List SvgDefinition) : List Event :=
  Event.writeFileEv (o.outputDirectory ++ "/" ++ o.iconsFolderName) o.modelFileName
      (modelFileContent co o svgDefinitions) FILE_TYPE.TS
    :: Event.logInfoEv ("model-file successfully generated under " ++ o.outputDirectory ++
        "/" ++ o.iconsFolderName ++ "/" ++ o.modelFileName ++ ".ts")
    :: (if o.additionalModelOutputPath ≠ "" then
         [Event.writeFileEv o.additionalModelOutputPath o.modelFileName
            (modelFileContent co o svgDefinitions) FILE_TYPE.TS,
          Event.logInfoEv ("additional model-file successfully generated under " ++
            o.additionalModelOutputPath ++ "/" ++ o.modelFileName ++ ".ts")]
       else [])

/-- Events of the whole optional model block of the orchestrator: the
generator call plus the orchestrator's own duplicate write to the additional
output path. -/
def modelBlockEvents (co : Collab) (o : FilesConversionOptions)
    (svgDefinitions : List SvgDefinition) : List Event :=
  if o.modelFileName ≠ "" then
    modelStageEvents co o svgDefinitions ++
      (if o.additionalModelOutputPath ≠ "" then
        [Event.writeFileEv o.additionalModelOutputPath o.modelFileName
           (modelFileContent co o svgDefinitions) FILE_TYPE.TS]
       else [])
  else []

/-- Events of a successful `compileTypeScriptToJS` dispatch. -/
def compileStageEvents (co : Collab) (o : FilesConversionOptions) : List Event :=
  let generatedTypeScriptFilePaths := co.getFilePathsFromRegex
    [o.outputDirectory ++ "/" ++ o.iconsFolderName ++ "/*.ts",
     o.outputDirectory ++ "/" ++ o.barrelFileName ++ ".ts"]
  if o.compilationOutput = SVG_TO_TS_COMPILATION_OUTPUT.ESM then
    [Event.compileEsNextEv generatedTypeScriptFilePaths o.outputDirectory,
     Event.deleteFilesEv generatedTypeScriptFilePaths]
  else if o.compilationOutput = SVG_TO_TS_COMPILATION_OUTPUT.UMD then
    [Event.compileUMDEv generatedTypeScriptFilePaths o.outputDirectory,
     Event.deleteFilesEv generatedTypeScriptFilePaths]
  else if o.compilationOutput = SVG_TO_TS_COMPILATION_OUTPUT.ESM_AND_UMD then
    [Event.compileEsNextEv generatedTypeScriptFilePaths (o.outputDirectory ++ "/esm"),
     Event.compileUMDEv generatedTypeScriptFilePaths (o.outputDirectory ++ "/umd"),
     Event.deleteFilesEv generatedTypeScriptFilePaths,
     Event.deleteFolderEv (o.outputDirectory ++ "/build")]
  else
    [Event.logErrorEv (invalidCompilationOutputMessage o.compilationOutput)]

/-- Events of the optional compilation block of the orchestrator. -/
def compileBlockEvents (co : Collab) (o : FilesConversionOptions) : List Event :=
  if o.compileSources then compileStageEvents co o else []

/-- The full, ordered event trace of a successful pipeline run: folder
deletion, SVG ingestion, per-icon writes (with the optional complete-icon-set
write), the barrel write, the optional model writes, the optional compilation
block, and finally the success log. -/
def convertTrace (co : Collab) (o : FilesConversionOptions)
    (svgDefinitions : List SvgDefinition) : List Event :=
  [Event.deleteFolderEv (o.outputDirectory ++ "/" ++ o.iconsFolderName), Event.processSvgsEv]
    ++ constantsStageEvents co o svgDefinitions
    ++ completeIconSetEvents co o (defsAfterConstantStage o svgDefinitions)
    ++ [Event.writeFileEv o.outputDirectory o.barrelFileName
          (buildIndexFileContent co (generatedNames o svgDefinitions) o.interfaceName
            o.iconsFolderName o.modelFileName) FILE_TYPE.TS]
    ++ modelBlockEvents co o (defsAfterConstantStage o svgDefinitions)
    ++ compileBlockEvents co o
    ++ [Event.logSuccessEv o.outputDirectory]

/-! Section: basic lemmas about `bindRes`. -/

lemma bindRes_some {α β : Type} (evs : List Event) (a : α) (f : α → Res β) :
    bindRes (evs, some a) f = (evs ++ (f a).1, (f a).2) := rfl

lemma bindRes_none_fst {α β : Type} (evs : List Event) (f : α → Res β) :
    bindRes (evs, none) f = (evs, none) := rfl

lemma mem_bindRes {α β : Type} (e : Event) (x : Res α) (f : α → Res β) :
    e ∈ (bindRes x f).1 ↔ e ∈ x.1 ∨ ∃ a, x.2 = some a ∧ e ∈ (f a).1 := by
  rcases x with ⟨evs, r⟩
  cases r with
  | none => simp [bindRes]
  | some a => simp [bindRes]

lemma bindRes_snd_some {α β : Type} (x : Res α) (f : α → Res β) (b : β) :
    (bindRes x f).2 = some b ↔ ∃ a, x.2 = some a ∧ (f a).2 = some b := by
  rcases x with ⟨evs, r⟩
  cases r with
  | none => simp [bindRes]
  | some a => simp [bindRes]

/-! Section: successful-stage computations. -/

lemma generateSVGConstants_ok (co : Collab) (w : World)
    (outputDirectory iconsFolderName : String)
    (hw : ∀ n, w.writeFileOk (outputDirectory ++ "/" ++ iconsFolderName) n = true)
    (svgDefinitions : List SvgDefinition) :
    generateSVGConstants co w svgDefinitions outputDirectory iconsFolderName =
      (svgStageEvents co outputDirectory iconsFolderName svgDefinitions,
        some (svgDefinitions.map iconFileName)) := by
  induction svgDefinitions with
  | nil => simp [generateSVGConstants, svgStageEvents, okRes]
  | cons d rest ih =>
      simp [generateSVGConstants, svgStageEvents, writeFileOp, hw, bindRes, emitRes, okRes, ih]

lemma generateTSXFileConstants_ok (co : Collab) (w : World)
    (outputDirectory iconsFolderName : String)
    (hw : ∀ n, w.writeFileOk (outputDirectory ++ "/" ++ iconsFolderName) n = true)
    (svgDefinitions : List SvgDefinition) :
    generateTSXFileConstants co w svgDefinitions outputDirectory iconsFolderName =
      (tsxStageEvents co outputDirectory iconsFolderName svgDefinitions,
        some (svgDefinitions.map iconFileName, svgDefinitions.map capitalizeDef)) := by
  induction svgDefinitions with
  | nil => simp [generateTSXFileConstants, tsxStageEvents, okRes]
  | cons d rest ih =>
      simp [generateTSXFileConstants, tsxStageEvents, writeFileOp, hw, bindRes, emitRes, okRes,
        ih, capitalizeDef, iconFileName]

lemma generateModelFile_ok (co : Collab) (w : World) (o : FilesConversionOptions)
    (svgDefinitions : List SvgDefinition)
    (hw : ∀ d n, w.writeFileOk d n = true) :
    generateModelFile co w o svgDefinitions =
      (modelStageEvents co o svgDefinitions, some (modelFileContent co o svgDefinitions)) := by
  by_cases hamp : o.additionalModelOutputPath = "" <;>
    simp [generateModelFile, modelStageEvents, writeFileOp, hw, bindRes, emitRes, okRes, hamp]

lemma compileTypeScriptToJS_ok (co : Collab) (w : World) (o : FilesConversionOptions)
    (hdf : ∀ p, w.deleteFolderOk p = true) :
    compileTypeScriptToJS co w o.outputDirectory o.iconsFolderName o.barrelFileName
        o.compilationOutput =
      (compileStageEvents co o, some ()) := by
  by_cases h1 : o.compilationOutput = SVG_TO_TS_COMPILATION_OUTPUT.ESM
  · simp [compileTypeScriptToJS, compileStageEvents, h1, bindRes, emitRes,
      SVG_TO_TS_COMPILATION_OUTPUT.ESM, SVG_TO_TS_COMPILATION_OUTPUT.UMD,
      SVG_TO_TS_COMPILATION_OUTPUT.ESM_AND_UMD]
  · by_cases h2 : o.compilationOutput = SVG_TO_TS_COMPILATION_OUTPUT.UMD
    · simp [compileTypeScriptToJS, compileStageEvents, h1, h2, bindRes, emitRes,
        SVG_TO_TS_COMPILATION_OUTPUT.ESM, SVG_TO_TS_COMPILATION_OUTPUT.UMD,
        SVG_TO_TS_COMPILATION_OUTPUT.ESM_AND_UMD]
    · by_cases h3 : o.compilationOutput = SVG_TO_TS_COMPILATION_OUTPUT.ESM_AND_UMD
      · simp [compileTypeScriptToJS, compileStageEvents, h1, h2, h3, bindRes, emitRes,
          deleteFolderOp, hdf, SVG_TO_TS_COMPILATION_OUTPUT.ESM,
          SVG_TO_TS_COMPILATION_OUTPUT.UMD, SVG_TO_TS_COMPILATION_OUTPUT.ESM_AND_UMD]
      · simp [compileTypeScriptToJS, compileStageEvents, h1, h2, h3, bindRes, emitRes]

lemma convertToFiles_allOk (co : Collab) (w : World) (o : FilesConversionOptions)
    (defs : List SvgDefinition)
    (hdf : ∀ p, w.deleteFolderOk p = true)
    (hwf : ∀ d n, w.writeFileOk d n = true)
    (hfp : w.filesProcessorResult = some defs) :
    convertToFiles co w o = (convertTrace co o defs, some ()) := by
  have hsvg := generateSVGConstants_ok co w o.outputDirectory o.iconsFolderName
    (fun n => hwf _ n) defs
  have htsx := generateTSXFileConstants_ok co w o.outputDirectory o.iconsFolderName
    (fun n => hwf _ n) defs
  have hmodel1 := generateModelFile_ok co w o defs hwf
  have hmodel2 := generateModelFile_ok co w o (defs.map capitalizeDef) hwf
  have hcompile := compileTypeScriptToJS_ok co w o hdf
  cases htsx0 : o.tsx <;>
    cases hecis : o.exportCompleteIconSet <;>
    by_cases hm : o.modelFileName = "" <;>
    by_cases ha : o.additionalModelOutputPath = "" <;>
    cases hcs : o.compileSources <;>
    simp [convertToFiles, convertTrace, deleteFolderOp, filesProcessorOp, hdf, hfp, hsvg, htsx,
      hmodel1, hmodel2, hcompile, bindRes, okRes, emitRes, writeFileOp, hwf,
      generateCompleteIconSet, constantsStageEvents, completeIconSetEvents,
      defsAfterConstantStage, generatedNames, modelBlockEvents, compileBlockEvents,
      htsx0, hecis, hm, ha, hcs]

/-! Section: shape and inversion lemmas for arbitrary worlds. -/

lemma append_slash_ne (a b : String) : a ++ "/" ++ b ≠ a := by
  intro h
  have h2 := congrArg String.length h
  have h3 : ("/" : String).length = 1 := rfl
  simp [String.length_append, h3] at h2
  omega

lemma generateSVGConstants_shape (co : Collab) (w : World)
    (outputDirectory iconsFolderName : String) (svgDefinitions : List SvgDefinition)
    (e : Event)
    (he : e ∈ (generateSVGConstants co w svgDefinitions outputDirectory iconsFolderName).1) :
    (∃ n c k, e = Event.writeFileEv (outputDirectory ++ "/" ++ iconsFolderName) n c k) ∨
      (∃ m, e = Event.logInfoEv m) := by
  induction svgDefinitions with
  | nil => simp [generateSVGConstants, okRes] at he
  | cons d rest ih =>
      rcases hrec : generateSVGConstants co w rest outputDirectory iconsFolderName with ⟨evs, r⟩
      by_cases hw : w.writeFileOk (outputDirectory ++ "/" ++ iconsFolderName) (iconFileName d)
      · simp [generateSVGConstants, writeFileOp, hw, bindRes, emitRes, okRes, hrec] at he
        have hevs : e ∈ evs → _ := fun hin => ih (by rw [hrec]; exact hin)
        rcases r with _ | ns
        · simp at he
          rcases he with he | he | he
          · exact Or.inl ⟨_, _, _, he⟩
          · exact Or.inr ⟨_, he⟩
          · exact hevs he
        · simp at he
          rcases he with he | he | he
          · exact Or.inl ⟨_, _, _, he⟩
          · exact Or.inr ⟨_, he⟩
          · exact hevs he
      · simp [generateSVGConstants, writeFileOp, hw, bindRes] at he

lemma generateTSXFileConstants_shape (co : Collab) (w : World)
    (outputDirectory iconsFolderName : String) (svgDefinitions : List SvgDefinition)
    (e : Event)
    (he : e ∈ (generateTSXFileConstants co w svgDefinitions outputDirectory iconsFolderName).1) :
    (∃ n c k, e = Event.writeFileEv (outputDirectory ++ "/" ++ iconsFolderName) n c k) ∨
      (∃ m, e = Event.logInfoEv m) := by
  induction svgDefinitions with
  | nil => simp [generateTSXFileConstants, okRes] at he
  | cons d rest ih =>
      rcases hrec : generateTSXFileConstants co w rest outputDirectory iconsFolderName
        with ⟨evs, r⟩
      by_cases hw : w.writeFileOk (outputDirectory ++ "/" ++ iconsFolderName)
          (iconFileName (capitalizeDef d))
      · simp [generateTSXFileConstants, writeFileOp, hw, bindRes, emitRes, okRes, hrec] at he
        have hevs : e ∈ evs → _ := fun hin => ih (by rw [hrec]; exact hin)
        rcases r with _ | p
        · simp at he
          rcases he with he | he | he
          · exact Or.inl ⟨_, _, _, he⟩
          · exact Or.inr ⟨_, he⟩
          · exact hevs he
        · simp at he
          rcases he with he | he | he
          · exact Or.inl ⟨_, _, _, he⟩
          · exact Or.inr ⟨_, he⟩
          · exact hevs he
      · simp [generateTSXFileConstants, writeFileOp, hw, bindRes] at he

lemma generateSVGConstants_of_snd_some (co : Collab) (w : World)
    (outputDirectory iconsFolderName : String) (svgDefinitions : List SvgDefinition)
    (ns : List String)
    (h : (generateSVGConstants co w svgDefinitions outputDirectory iconsFolderName).2 =
      some ns) :
    generateSVGConstants co w svgDefinitions outputDirectory iconsFolderName =
      (svgStageEvents co outputDirectory iconsFolderName svgDefinitions,
        some (svgDefinitions.map iconFileName)) := by
  induction svgDefinitions generalizing ns with
  | nil => simp [generateSVGConstants, svgStageEvents, okRes]
  | cons d rest ih =>
      rcases hrec : generateSVGConstants co w rest outputDirectory iconsFolderName with ⟨evs, r⟩
      by_cases hw : w.writeFileOk (outputDirectory ++ "/" ++ iconsFolderName) (iconFileName d)
      · rcases r with _ | ns'
        · exfalso
          simp [generateSVGConstants, writeFileOp, hw, bindRes, emitRes, okRes, hrec] at h
        · have hrec2 := ih ns' (by rw [hrec])
          rw [hrec] at hrec2
          injection hrec2 with h1 h2
          injection h2 with h2
          simp [generateSVGConstants, svgStageEvents, writeFileOp, hw, bindRes, emitRes,
            okRes, hrec, h1, h2]
      · exfalso
        simp [generateSVGConstants, writeFileOp, hw, bindRes] at h

lemma capitalizeDef_variableName (d : SvgDefinition) :
    (capitalizeDef d).variableName = capitalize d.variableName := rfl

lemma capitalizeDef_typeName (d : SvgDefinition) :
    (capitalizeDef d).typeName = d.typeName := rfl

lemma capitalizeDef_filenameWithoutEnding (d : SvgDefinition) :
    (capitalizeDef d).filenameWithoutEnding = d.filenameWithoutEnding := rfl

lemma capitalizeDef_prefixName (d : SvgDefinition) :
    (capitalizeDef d).prefixName = d.prefixName := rfl

lemma capitalizeDef_data (d : SvgDefinition) :
    (capitalizeDef d).data = d.data := rfl

lemma iconFileName_capitalizeDef (d : SvgDefinition) :
    iconFileName (capitalizeDef d) = iconFileName d := rfl

lemma generateTSXFileConstants_of_snd_some (co : Collab) (w : World)
    (outputDirectory iconsFolderName : String) (svgDefinitions : List SvgDefinition)
    (p : List String × List SvgDefinition)
    (h : (generateTSXFileConstants co w svgDefinitions outputDirectory iconsFolderName).2 =
      some p) :
    generateTSXFileConstants co w svgDefinitions outputDirectory iconsFolderName =
      (tsxStageEvents co outputDirectory iconsFolderName svgDefinitions,
        some (svgDefinitions.map iconFileName, svgDefinitions.map capitalizeDef)) := by
  induction svgDefinitions generalizing p with
  | nil => simp [generateTSXFileConstants, tsxStageEvents, okRes]
  | cons d rest ih =>
      rcases hrec : generateTSXFileConstants co w rest outputDirectory iconsFolderName
        with ⟨evs, r⟩
      by_cases hw : w.writeFileOk (outputDirectory ++ "/" ++ iconsFolderName)
          (iconFileName (capitalizeDef d))
      · rw [iconFileName_capitalizeDef] at hw
        rcases r with _ | p'
        · exfalso
          simp [generateTSXFileConstants, writeFileOp, hw, bindRes, emitRes, okRes, hrec,
            iconFileName_capitalizeDef] at h
        · have hrec2 := ih p' (by rw [hrec])
          rw [hrec] at hrec2
          injection hrec2 with h1 h2
          injection h2 with h2
          simp [generateTSXFileConstants, tsxStageEvents, writeFileOp, hw, bindRes, emitRes,
            okRes, hrec, h1, h2, iconFileName_capitalizeDef, capitalizeDef_variableName,
            capitalizeDef_data]
      · exfalso
        simp [generateTSXFileConstants, writeFileOp, hw, bindRes] at h

lemma svgStageEvents_write_exists (co : Collab) (outputDirectory iconsFolderName : String)
    (svgDefinitions : List SvgDefinition) (n : String)
    (hn : n ∈ svgDefinitions.map iconFileName) :
    ∃ c k, Event.writeFileEv (outputDirectory ++ "/" ++ iconsFolderName) n c k ∈
      svgStageEvents co outputDirectory iconsFolderName svgDefinitions := by
  induction svgDefinitions with
  | nil => simp at hn
  | cons d rest ih =>
      rw [List.map_cons, List.mem_cons] at hn
      rcases hn with hn | hn
      · refine ⟨co.generateSvgConstant d.variableName d.typeName d.data, FILE_TYPE.TS, ?_⟩
        simp only [svgStageEvents]
        rw [hn]
        exact List.mem_cons_self _ _
      · obtain ⟨c, k, hm⟩ := ih hn
        refine ⟨c, k, ?_⟩
        simp only [svgStageEvents]
        exact List.mem_cons_of_mem _ (List.mem_cons_of_mem _ hm)

lemma tsxStageEvents_write_exists (co : Collab) (outputDirectory iconsFolderName : String)
    (svgDefinitions : List SvgDefinition) (n : String)
    (hn : n ∈ svgDefinitions.map iconFileName) :
    ∃ c k, Event.writeFileEv (outputDirectory ++ "/" ++ iconsFolderName) n c k ∈
      tsxStageEvents co outputDirectory iconsFolderName svgDefinitions := by
  induction svgDefinitions with
  | nil => simp at hn
  | cons d rest ih =>
      rw [List.map_cons, List.mem_cons] at hn
      rcases hn with hn | hn
      · refine ⟨co.generateTSXConstant (capitalize d.variableName) d.data, FILE_TYPE.TSX, ?_⟩
        simp only [tsxStageEvents]
        rw [hn]
        exact List.mem_cons_self _ _
      · obtain ⟨c, k, hm⟩ := ih hn
        refine ⟨c, k, ?_⟩
        simp only [tsxStageEvents]
        exact List.mem_cons_of_mem _ (List.mem_cons_of_mem _ hm)

lemma bindRes_mem_imp {α β : Type} {e : Event} {x : Res α} {f : α → Res β}
    (hx : e ∉ x.1) (h : e ∈ (bindRes x f).1) :
    ∃ a, x.2 = some a ∧ e ∈ (f a).1 := by
  rw [mem_bindRes] at h
  tauto

lemma bindRes_snd_of {α β : Type} {x : Res α} {f : α → Res β} {b : β} (a : α)
    (ha : x.2 = some a) (hf : (f a).2 = some b) : (bindRes x f).2 = some b := by
  rw [bindRes_snd_some]
  exact ⟨a, ha, hf⟩

lemma noSuccess_deleteFolderOp (w : World) (p s : String) :
    Event.logSuccessEv s ∉ (deleteFolderOp w p).1 := by
  by_cases h : w.deleteFolderOk p <;> simp [deleteFolderOp, h]

lemma noSuccess_writeFileOp (w : World) (fp fn c : String) (k : FILE_TYPE) (s : String) :
    Event.logSuccessEv s ∉ (writeFileOp w fp fn c k).1 := by
  by_cases h : w.writeFileOk fp fn <;> simp [writeFileOp, h]

lemma noSuccess_filesProcessorOp (w : World) (s : String) :
    Event.logSuccessEv s ∉ (filesProcessorOp w).1 := by
  rcases h : w.filesProcessorResult with _ | defs <;> simp [filesProcessorOp, h]

lemma noSuccess_generateSVGConstants (co : Collab) (w : World)
    (svgDefinitions : List SvgDefinition) (outputDirectory iconsFolderName s : String) :
    Event.logSuccessEv s ∉
      (generateSVGConstants co w svgDefinitions outputDirectory iconsFolderName).1 := by
  intro h
  rcases generateSVGConstants_shape co w outputDirectory iconsFolderName svgDefinitions _ h with
    ⟨n, c, k, h2⟩ | ⟨m, h2⟩ <;> exact Event.noConfusion h2

lemma noSuccess_generateTSXFileConstants (co : Collab) (w : World)
    (svgDefinitions : List SvgDefinition) (outputDirectory iconsFolderName s : String) :
    Event.logSuccessEv s ∉
      (generateTSXFileConstants co w svgDefinitions outputDirectory iconsFolderName).1 := by
  intro h
  rcases generateTSXFileConstants_shape co w outputDirectory iconsFolderName svgDefinitions _ h
    with ⟨n, c, k, h2⟩ | ⟨m, h2⟩ <;> exact Event.noConfusion h2

lemma noSuccess_generateCompleteIconSet (co : Collab) (w : World)
    (svgDefinitions : List SvgDefinition)
    (outputDirectory iconsFolderName completeIconSetName interfaceName modelFileName : String)
    (generateType tsx : Bool) (s : String) :
    Event.logSuccessEv s ∉ (generateCompleteIconSet co w svgDefinitions outputDirectory
      iconsFolderName completeIconSetName interfaceName modelFileName generateType tsx).1 := by
  exact noSuccess_writeFileOp w _ _ _ _ s

lemma noSuccess_generateModelFile (co : Collab) (w : World) (o : FilesConversionOptions)
    (svgDefinitions : List SvgDefinition) (s : String) :
    Event.logSuccessEv s ∉ (generateModelFile co w o svgDefinitions).1 := by
  by_cases hw1 : w.writeFileOk (o.outputDirectory ++ "/" ++ o.iconsFolderName) o.modelFileName
  · by_cases hamp : o.additionalModelOutputPath = ""
    · simp [generateModelFile, writeFileOp, hw1, hamp, bindRes, emitRes, okRes]
    · by_cases hw2 : w.writeFileOk o.additionalModelOutputPath o.modelFileName <;>
        simp [generateModelFile, writeFileOp, hw1, hamp, hw2, bindRes, emitRes, okRes]
  · simp [generateModelFile, writeFileOp, hw1, bindRes]

lemma noSuccess_compileTypeScriptToJS (co : Collab) (w : World)
    (outputDirectory iconsFolderName barrelFileName compilationOutput s : String) :
    Event.logSuccessEv s ∉ (compileTypeScriptToJS co w outputDirectory iconsFolderName
      barrelFileName compilationOutput).1 := by
  by_cases h1 : compilationOutput = SVG_TO_TS_COMPILATION_OUTPUT.ESM
  · simp [compileTypeScriptToJS, h1, bindRes, emitRes, SVG_TO_TS_COMPILATION_OUTPUT.ESM,
      SVG_TO_TS_COMPILATION_OUTPUT.UMD, SVG_TO_TS_COMPILATION_OUTPUT.ESM_AND_UMD]
  · by_cases h2 : compilationOutput = SVG_TO_TS_COMPILATION_OUTPUT.UMD
    · simp [compileTypeScriptToJS, h1, h2, bindRes, emitRes, SVG_TO_TS_COMPILATION_OUTPUT.ESM,
        SVG_TO_TS_COMPILATION_OUTPUT.UMD, SVG_TO_TS_COMPILATION_OUTPUT.ESM_AND_UMD]
    · by_cases h3 : compilationOutput = SVG_TO_TS_COMPILATION_OUTPUT.ESM_AND_UMD
      · by_cases hd : w.deleteFolderOk (outputDirectory ++ "/build") <;>
          simp [compileTypeScriptToJS, h1, h2, h3, bindRes, emitRes, deleteFolderOp, hd,
            SVG_TO_TS_COMPILATION_OUTPUT.ESM, SVG_TO_TS_COMPILATION_OUTPUT.UMD,
            SVG_TO_TS_COMPILATION_OUTPUT.ESM_AND_UMD]
      · simp [compileTypeScriptToJS, h1, h2, h3, bindRes, emitRes]

lemma noSuccess_okRes {α : Type} (a : α) (s : String) :
    Event.logSuccessEv s ∉ (okRes a).1 := by
  simp [okRes]

lemma noSuccess_bindRes {α β : Type} {x : Res α} {f : α → Res β} {s : String}
    (hx : Event.logSuccessEv s ∉ x.1) (hf : ∀ a, Event.logSuccessEv s ∉ (f a).1) :
    Event.logSuccessEv s ∉ (bindRes x f).1 := by
  rw [mem_bindRes]
  rintro (h | ⟨a, -, h⟩)
  · exact hx h
  · exact hf a h

lemma noSuccess_ite {α : Type} {c : Prop} [Decidable c] {x y : Res α} {s : String}
    (hx : Event.logSuccessEv s ∉ x.1) (hy : Event.logSuccessEv s ∉ y.1) :
    Event.logSuccessEv s ∉ (if c then x else y).1 := by
  by_cases h : c <;> simp [h] <;> assumption

lemma bindRes_decomp {α : Type} {x : Res α} {a : α} (ha : x.2 = some a) {β : Type}
    (f : α → Res β) : bindRes x f = (x.1 ++ (f a).1, (f a).2) := by
  rcases x with ⟨evs, r⟩
  cases r with
  | none => exact absurd ha (by simp)
  | some a2 =>
      obtain rfl : a2 = a := by simpa using ha
      simp [bindRes]

/-- If the pipeline's trace contains the success log line, every stage of the
pipeline succeeded (the success log is the final stage and runs only after
every prior stage's result). -/
lemma convertToFiles_snd_some_of_logSuccess_mem (co : Collab) (w : World)
    (o : FilesConversionOptions) (s : String)
    (h : Event.logSuccessEv s ∈ (convertToFiles co w o).1) :
    (convertToFiles co w o).2 = some () := by
  simp only [convertToFiles] at h ⊢
  obtain ⟨u1, hA, h⟩ := bindRes_mem_imp (noSuccess_deleteFolderOp w _ s) h
  obtain ⟨svgDefinitions, hB, h⟩ := bindRes_mem_imp (noSuccess_filesProcessorOp w s) h
  obtain ⟨p, hC, h⟩ := bindRes_mem_imp
    (noSuccess_ite (noSuccess_generateTSXFileConstants co w svgDefinitions _ _ s)
      (noSuccess_bindRes (noSuccess_generateSVGConstants co w svgDefinitions _ _ s)
        (fun a => noSuccess_okRes _ s))) h
  obtain ⟨names, hD, h⟩ := bindRes_mem_imp
    (noSuccess_ite
      (noSuccess_bindRes
        (noSuccess_generateCompleteIconSet co w _ _ _ _ _ _ _ _ s)
        (fun a => noSuccess_okRes _ s))
      (noSuccess_okRes _ s)) h
  obtain ⟨u2, hE, h⟩ := bindRes_mem_imp (noSuccess_writeFileOp w _ _ _ _ s) h
  obtain ⟨u3, hF, h⟩ := bindRes_mem_imp
    (noSuccess_ite
      (noSuccess_bindRes (noSuccess_generateModelFile co w o _ s)
        (fun mf => noSuccess_ite (noSuccess_writeFileOp w _ _ _ _ s) (noSuccess_okRes _ s)))
      (noSuccess_okRes _ s)) h
  obtain ⟨u4, hG, h⟩ := bindRes_mem_imp
    (noSuccess_ite (noSuccess_compileTypeScriptToJS co w _ _ _ _ s)
      (noSuccess_okRes _ s)) h
  exact bindRes_snd_of u1 hA (bindRes_snd_of svgDefinitions hB (bindRes_snd_of p hC
    (bindRes_snd_of names hD (bindRes_snd_of u2 hE (bindRes_snd_of u3 hF
      (bindRes_snd_of u4 hG rfl))))))

lemma notMem_okRes {α : Type} (a : α) (e : Event) : e ∉ (okRes a).1 := by
  simp [okRes]

lemma notMem_bindRes {α β : Type} {x : Res α} {f : α → Res β} {e : Event}
    (hx : e ∉ x.1) (hf : ∀ a, e ∉ (f a).1) : e ∉ (bindRes x f).1 := by
  rw [mem_bindRes]
  rintro (h | ⟨a, -, h⟩)
  · exact hx h
  · exact hf a h

lemma notMem_ite {α : Type} {c : Prop} [Decidable c] {x y : Res α} {e : Event}
    (hx : e ∉ x.1) (hy : e ∉ y.1) : e ∉ (if c then x else y).1 := by
  by_cases h : c <;> simp [h] <;> assumption

lemma notBarrel_deleteFolderOp (w : World) (p fn c : String) (k : FILE_TYPE)
    (outputDirectory : String) :
    Event.writeFileEv outputDirectory fn c k ∉ (deleteFolderOp w p).1 := by
  by_cases h : w.deleteFolderOk p <;> simp [deleteFolderOp, h]

lemma notBarrel_filesProcessorOp (w : World) (outputDirectory fn c : String) (k : FILE_TYPE) :
    Event.writeFileEv outputDirectory fn c k ∉ (filesProcessorOp w).1 := by
  rcases h : w.filesProcessorResult with _ | defs <;> simp [filesProcessorOp, h]

lemma notBarrel_generateSVGConstants (co : Collab) (w : World)
    (svgDefinitions : List SvgDefinition) (outputDirectory iconsFolderName fn c : String)
    (k : FILE_TYPE) :
    Event.writeFileEv outputDirectory fn c k ∉
      (generateSVGConstants co w svgDefinitions outputDirectory iconsFolderName).1 := by
  intro h
  rcases generateSVGConstants_shape co w outputDirectory iconsFolderName svgDefinitions _ h with
    ⟨n, c2, k2, h2⟩ | ⟨m, h2⟩
  · injection h2 with h3 h4 h5 h6
    exact append_slash_ne outputDirectory iconsFolderName h3.symm
  · exact Event.noConfusion h2

lemma notBarrel_generateTSXFileConstants (co : Collab) (w : World)
    (svgDefinitions : List SvgDefinition) (outputDirectory iconsFolderName fn c : String)
    (k : FILE_TYPE) :
    Event.writeFileEv outputDirectory fn c k ∉
      (generateTSXFileConstants co w svgDefinitions outputDirectory iconsFolderName).1 := by
  intro h
  rcases generateTSXFileConstants_shape co w outputDirectory iconsFolderName svgDefinitions _ h
    with ⟨n, c2, k2, h2⟩ | ⟨m, h2⟩
  · injection h2 with h3 h4 h5 h6
    exact append_slash_ne outputDirectory iconsFolderName h3.symm
  · exact Event.noConfusion h2

lemma notBarrel_generateCompleteIconSet (co : Collab) (w : World)
    (svgDefinitions : List SvgDefinition)
    (outputDirectory iconsFolderName completeIconSetName interfaceName modelFileName : String)
    (generateType tsx : Bool) (fn c : String) (k : FILE_TYPE) :
    Event.writeFileEv outputDirectory fn c k ∉ (generateCompleteIconSet co w svgDefinitions
      outputDirectory iconsFolderName completeIconSetName interfaceName modelFileName
      generateType tsx).1 := by
  rw [generateCompleteIconSet]
  by_cases hw : w.writeFileOk (outputDirectory ++ "/" ++ iconsFolderName) completeIconSetName
  · simp [writeFileOp, hw]
    intro h
    exact absurd h.symm (append_slash_ne outputDirectory iconsFolderName)
  · simp [writeFileOp, hw]

lemma deleteFolderOk_of_snd_some (w : World) (p : String) (u : Unit)
    (h : (deleteFolderOp w p).2 = some u) : w.deleteFolderOk p = true := by
  by_contra hb
  simp [deleteFolderOp, hb] at h

lemma writeFileOk_of_snd_some (w : World) (fp fn c : String) (k : FILE_TYPE) (u : Unit)
    (h : (writeFileOp w fp fn c k).2 = some u) : w.writeFileOk fp fn = true := by
  by_contra hb
  simp [writeFileOp, hb] at h

lemma filesProcessorResult_of_snd_some (w : World) (defs : List SvgDefinition)
    (h : (filesProcessorOp w).2 = some defs) : w.filesProcessorResult = some defs := by
  rcases hr : w.filesProcessorResult with _ | defs2 <;> simp [filesProcessorOp, hr] at h
  rw [h]

lemma deleteFolderOp_eq_of_ok (w : World) (p : String) (hok : w.deleteFolderOk p = true) :
    deleteFolderOp w p = ([Event.deleteFolderEv p], some ()) := by
  simp [deleteFolderOp, hok]

lemma writeFileOp_eq_of_ok (w : World) (fp fn c : String) (k : FILE_TYPE)
    (hok : w.writeFileOk fp fn = true) :
    writeFileOp w fp fn c k = ([Event.writeFileEv fp fn c k], some ()) := by
  simp [writeFileOp, hok]

lemma filesProcessorOp_eq_of_some (w : World) (defs : List SvgDefinition)
    (h : w.filesProcessorResult = some defs) :
    filesProcessorOp w = ([Event.processSvgsEv], some defs) := by
  simp [filesProcessorOp, h]

/-- If the constant-generation stage (TSX or SVG as the orchestrator selects)
produced a result, every per-icon write succeeded and the stage's value is
the derived name list together with the definition list later stages see. -/
lemma constantStage_of_snd_some (co : Collab) (w : World) (o : FilesConversionOptions)
    (svgDefinitions : List SvgDefinition) (p : List String × List SvgDefinition)
    (hC : (if o.tsx = true then
        generateTSXFileConstants co w svgDefinitions o.outputDirectory o.iconsFolderName
      else
        bindRes (generateSVGConstants co w svgDefinitions o.outputDirectory o.iconsFolderName)
          (fun generatedFileNames => okRes (generatedFileNames, svgDefinitions))).2 = some p) :
    (if o.tsx = true then
        generateTSXFileConstants co w svgDefinitions o.outputDirectory o.iconsFolderName
      else
        bindRes (generateSVGConstants co w svgDefinitions o.outputDirectory o.iconsFolderName)
          (fun generatedFileNames => okRes (generatedFileNames, svgDefinitions))) =
      (constantsStageEvents co o svgDefinitions,
        some (svgDefinitions.map iconFileName, defsAfterConstantStage o svgDefinitions)) := by
  cases htsx : o.tsx
  · simp only [htsx, Bool.false_eq_true, if_false] at hC ⊢
    rw [bindRes_snd_some] at hC
    obtain ⟨ns, hns, -⟩ := hC
    have heq := generateSVGConstants_of_snd_some co w o.outputDirectory o.iconsFolderName
      svgDefinitions ns hns
    simp [heq, constantsStageEvents, defsAfterConstantStage, htsx, bindRes, okRes]
  · simp only [htsx, if_true] at hC ⊢
    have heq := generateTSXFileConstants_of_snd_some co w o.outputDirectory o.iconsFolderName
      svgDefinitions p hC
    simp [heq, constantsStageEvents, defsAfterConstantStage, htsx]

/-- If the optional complete-icon-set block produced a name list, the
aggregate write (when enabled) succeeded and the list is the per-icon names
extended by the complete-icon-set name exactly when the flag is on. -/
lemma completeBlock_of_snd_some (co : Collab) (w : World) (o : FilesConversionOptions)
    (defs2 : List SvgDefinition) (names0 names : List String)
    (hD : (if o.exportCompleteIconSet = true then
        bindRes (generateCompleteIconSet co w defs2 o.outputDirectory o.iconsFolderName
            o.completeIconSetName o.interfaceName o.modelFileName o.generateType o.tsx)
          (fun _ => okRes (names0 ++ [o.completeIconSetName]))
      else okRes names0).2 = some names) :
    (if o.exportCompleteIconSet = true then
        bindRes (generateCompleteIconSet co w defs2 o.outputDirectory o.iconsFolderName
            o.completeIconSetName o.interfaceName o.modelFileName o.generateType o.tsx)
          (fun _ => okRes (names0 ++ [o.completeIconSetName]))
      else okRes names0) =
      (completeIconSetEvents co o defs2,
        some (names0 ++ (if o.exportCompleteIconSet then [o.completeIconSetName] else []))) := by
  cases hecis : o.exportCompleteIconSet
  · simp [hecis, okRes, completeIconSetEvents]
  · simp only [hecis, if_true] at hD ⊢
    rw [bindRes_snd_some] at hD
    obtain ⟨u, hu, -⟩ := hD
    have hw : w.writeFileOk (o.outputDirectory ++ "/" ++ o.iconsFolderName)
        o.completeIconSetName = true := by
      by_contra hw
      simp [generateCompleteIconSet, writeFileOp, hw] at hu
    simp [generateCompleteIconSet, writeFileOp, hw, completeIconSetEvents, hecis,
      bindRes, okRes]

/-- Every name in the `generatedFileNames` sequence has a write event, into
the icons folder, among the events of the constant-generation stage and the
complete-icon-set block. -/
lemma generatedNames_write_exists (co : Collab) (o : FilesConversionOptions)
    (svgDefinitions : List SvgDefinition) (n : String)
    (hn : n ∈ generatedNames o svgDefinitions) :
    ∃ c2 k2, Event.writeFileEv (o.outputDirectory ++ "/" ++ o.iconsFolderName) n c2 k2 ∈
      constantsStageEvents co o svgDefinitions ++
        completeIconSetEvents co o (defsAfterConstantStage o svgDefinitions) := by
  rw [generatedNames, List.mem_append] at hn
  rcases hn with hn | hn
  · cases htsx : o.tsx
    · obtain ⟨c2, k2, hm⟩ :=
        svgStageEvents_write_exists co o.outputDirectory o.iconsFolderName svgDefinitions n hn
      exact ⟨c2, k2, List.mem_append_left _ (by simpa [constantsStageEvents, htsx] using hm)⟩
    · obtain ⟨c2, k2, hm⟩ :=
        tsxStageEvents_write_exists co o.outputDirectory o.iconsFolderName svgDefinitions n hn
      exact ⟨c2, k2, List.mem_append_left _ (by simpa [constantsStageEvents, htsx] using hm)⟩
  · cases hecis : o.exportCompleteIconSet
    · simp [hecis] at hn
    · simp only [hecis, if_true, List.mem_singleton] at hn
      subst hn
      refine ⟨co.generateCompleteIconSetContent (defsAfterConstantStage o svgDefinitions)
        o.completeIconSetName o.interfaceName o.modelFileName o.generateType o.tsx,
        FILE_TYPE.TS, List.mem_append_right _ ?_⟩
      simp [completeIconSetEvents, hecis]

/-- The residual computation of the orchestrator after the barrel write: the
optional model block, the optional compilation block, and the success log. -/
def afterBarrelRes (co : Collab) (w : World) (o : FilesConversionOptions)
    (defs2 : List SvgDefinition) : Res Unit :=
  bindRes (if o.modelFileName ≠ "" then
      bindRes (generateModelFile co w o defs2) (fun modelFile =>
        if o.additionalModelOutputPath ≠ "" then
          writeFileOp w o.additionalModelOutputPath o.modelFileName modelFile FILE_TYPE.TS
        else okRes ())
    else okRes ()) (fun _ =>
    bindRes (if o.compileSources = true then
        compileTypeScriptToJS co w o.outputDirectory o.iconsFolderName o.barrelFileName
          o.compilationOutput
      else okRes ()) (fun _ => emitRes (Event.logSuccessEv o.outputDirectory)))

/-- If the pipeline's trace contains the barrel-file write, every stage before
barrel assembly succeeded: the trace starts with the folder deletion, the
ingestion, all per-icon writes, the optional complete-icon-set write, and then
the barrel write built from the generated names. -/
lemma convertToFiles_barrel_reached (co : Collab) (w : World) (o : FilesConversionOptions)
    (c : String) (k : FILE_TYPE)
    (h : Event.writeFileEv o.outputDirectory o.barrelFileName c k ∈ (convertToFiles co w o).1) :
    ∃ defs, w.filesProcessorResult = some defs ∧
      (convertToFiles co w o).1 =
        Event.deleteFolderEv (o.outputDirectory ++ "/" ++ o.iconsFolderName) ::
          Event.processSvgsEv ::
          (constantsStageEvents co o defs ++
            (completeIconSetEvents co o (defsAfterConstantStage o defs) ++
              Event.writeFileEv o.outputDirectory o.barrelFileName
                (buildIndexFileContent co (generatedNames o defs) o.interfaceName
                  o.iconsFolderName o.modelFileName) FILE_TYPE.TS ::
                (afterBarrelRes co w o (defsAfterConstantStage o defs)).1)) := by
  simp only [convertToFiles] at h ⊢
  obtain ⟨u1, hA, h⟩ := bindRes_mem_imp (notBarrel_deleteFolderOp w _ _ _ _ _) h
  obtain ⟨defs, hB, h⟩ := bindRes_mem_imp (notBarrel_filesProcessorOp w _ _ _ _) h
  obtain ⟨p, hC, h⟩ := bindRes_mem_imp
    (notMem_ite (notBarrel_generateTSXFileConstants co w defs _ _ _ _ _)
      (notMem_bindRes (notBarrel_generateSVGConstants co w defs _ _ _ _ _)
        (fun a => notMem_okRes _ _))) h
  obtain ⟨names, hD, h⟩ := bindRes_mem_imp
    (notMem_ite
      (notMem_bindRes (notBarrel_generateCompleteIconSet co w _ _ _ _ _ _ _ _ _ _ _)
        (fun a => notMem_okRes _ _))
      (notMem_okRes _ _)) h
  have hE : w.writeFileOk o.outputDirectory o.barrelFileName = true := by
    rw [mem_bindRes] at h
    rcases h with h | ⟨u2, hu, -⟩
    · by_contra hb
      simp [writeFileOp, hb] at h
    · exact writeFileOk_of_snd_some w _ _ _ _ u2 hu
  have hCfull := constantStage_of_snd_some co w o defs p hC
  have hp : p = (defs.map iconFileName, defsAfterConstantStage o defs) := by
    rw [hCfull] at hC
    simpa using hC.symm
  subst hp
  have hDfull := completeBlock_of_snd_some co w o (defsAfterConstantStage o defs)
    (defs.map iconFileName) names hD
  have hnames : names = generatedNames o defs := by
    rw [hDfull] at hD
    simpa [generatedNames] using hD.symm
  subst hnames
  have hAok := deleteFolderOk_of_snd_some w _ u1 hA
  have hBres := filesProcessorResult_of_snd_some w defs hB
  have hEop := writeFileOp_eq_of_ok w o.outputDirectory o.barrelFileName
    (buildIndexFileContent co (generatedNames o defs) o.interfaceName o.iconsFolderName
      o.modelFileName) FILE_TYPE.TS hE
  have hEsnd : (writeFileOp w o.outputDirectory o.barrelFileName
      (buildIndexFileContent co (generatedNames o defs) o.interfaceName o.iconsFolderName
        o.modelFileName) FILE_TYPE.TS).2 = some () := by rw [hEop]
  refine ⟨defs, hBres, ?_⟩
  simp only [deleteFolderOp_eq_of_ok w _ hAok, filesProcessorOp_eq_of_some w defs hBres,
    hCfull, hDfull, hEop, bindRes_some]
  simp [afterBarrelRes, generatedNames, writeFileOp, hE, bindRes, List.append_assoc]

/-! Section: support for the claim theorems. -/

lemma join_foldl (l : List String) : ∀ s : String,
    List.foldl (fun a b => a ++ b) s l = s ++ String.join l := by
  induction l with
  | nil => intro s; simp [String.join, List.foldl, String.append_empty]
  | cons x xs ih =>
      intro s
      have hx : String.join (x :: xs) = x ++ String.join xs := by
        show List.foldl _ ("" ++ x) xs = _
        rw [ih ("" ++ x), String.empty_append]
      rw [hx]
      show List.foldl _ (s ++ x) xs = _
      rw [ih (s ++ x), String.append_assoc]

lemma join_append (a b : List String) :
    String.join (a ++ b) = String.join a ++ String.join b := by
  induction a with
  | nil => simp [String.join, List.foldl]
    
  | cons x xs ih =>
      have h1 : String.join ((x :: xs) ++ b) = x ++ String.join (xs ++ b) := by
        show List.foldl _ ("" ++ x) (xs ++ b) = _
        rw [join_foldl, String.empty_append]
      have h2 : String.join (x :: xs) = x ++ String.join xs := by
        show List.foldl _ ("" ++ x) xs = _
        rw [join_foldl, String.empty_append]
      rw [h1, h2, ih, String.append_assoc]

/-- The barrel content equals the type helper followed by the export
statements of the generated names and, last, of the model file name: the
export list is exactly `generatedFileNames ++ [modelFileName]`. -/
lemma buildIndexFileContent_join (co : Collab)
    (generatedFileNames : List String) (interfaceName iconsFolderName modelFileName : String) :
    buildIndexFileContent co generatedFileNames interfaceName iconsFolderName modelFileName =
      co.generateTypeHelperWithImport interfaceName iconsFolderName modelFileName ++
        String.join ((generatedFileNames ++ [modelFileName]).map
          (fun generatedFileName =>
            co.generateExportStatement generatedFileName iconsFolderName)) := by
  rw [buildIndexFileContent, List.map_append, join_append, String.append_assoc]
  simp [String.join, List.foldl, String.empty_append]

/-- Projection of a trace to its file-write events. -/
def writeEventsOf : List Event → List Event :=
  List.filter (fun e => match e with
    | Event.writeFileEv _ _ _ _ => true
    | _ => false)

lemma writeEventsOf_svgStageEvents (co : Collab) (outputDirectory iconsFolderName : String)
    (svgDefinitions : List SvgDefinition) :
    writeEventsOf (svgStageEvents co outputDirectory iconsFolderName svgDefinitions) =
      svgDefinitions.map (fun d =>
        Event.writeFileEv (outputDirectory ++ "/" ++ iconsFolderName) (iconFileName d)
          (co.generateSvgConstant d.variableName d.typeName d.data) FILE_TYPE.TS) := by
  induction svgDefinitions with
  | nil => simp [svgStageEvents, writeEventsOf]
  | cons d rest ih => simp [svgStageEvents, writeEventsOf, List.filter] at ih ⊢; exact ih

lemma writeEventsOf_tsxStageEvents (co : Collab) (outputDirectory iconsFolderName : String)
    (svgDefinitions : List SvgDefinition) :
    writeEventsOf (tsxStageEvents co outputDirectory iconsFolderName svgDefinitions) =
      svgDefinitions.map (fun d =>
        Event.writeFileEv (outputDirectory ++ "/" ++ iconsFolderName) (iconFileName d)
          (co.generateTSXConstant (capitalize d.variableName) d.data) FILE_TYPE.TSX) := by
  induction svgDefinitions with
  | nil => simp [tsxStageEvents, writeEventsOf]
  | cons d rest ih => simp [tsxStageEvents, writeEventsOf, List.filter] at ih ⊢; exact ih

/-- Whether an event is a file write into the given directory. -/
def isWriteAtDir (dir0 : String) : Event → Bool
  | Event.writeFileEv filePath _ _ _ => filePath == dir0
  | _ => false

lemma svgStageEvents_mem_shape (co : Collab) (outputDirectory iconsFolderName : String)
    (svgDefinitions : List SvgDefinition) (e : Event)
    (he : e ∈ svgStageEvents co outputDirectory iconsFolderName svgDefinitions) :
    (∃ n c k, e = Event.writeFileEv (outputDirectory ++ "/" ++ iconsFolderName) n c k) ∨
      (∃ m, e = Event.logInfoEv m) := by
  induction svgDefinitions with
  | nil => simp [svgStageEvents] at he
  | cons d rest ih =>
      simp only [svgStageEvents, List.mem_cons] at he
      rcases he with he | he | he
      · exact Or.inl ⟨_, _, _, he⟩
      · exact Or.inr ⟨_, he⟩
      · exact ih he

lemma tsxStageEvents_mem_shape (co : Collab) (outputDirectory iconsFolderName : String)
    (svgDefinitions : List SvgDefinition) (e : Event)
    (he : e ∈ tsxStageEvents co outputDirectory iconsFolderName svgDefinitions) :
    (∃ n c k, e = Event.writeFileEv (outputDirectory ++ "/" ++ iconsFolderName) n c k) ∨
      (∃ m, e = Event.logInfoEv m) := by
  induction svgDefinitions with
  | nil => simp [tsxStageEvents] at he
  | cons d rest ih =>
      simp only [tsxStageEvents, List.mem_cons] at he
      rcases he with he | he | he
      · exact Or.inl ⟨_, _, _, he⟩
      · exact Or.inr ⟨_, he⟩
      · exact ih he

lemma filter_isWriteAtDir_constantsStage (co : Collab) (o : FilesConversionOptions)
    (svgDefinitions : List SvgDefinition) (dir0 : String)
    (hne : o.outputDirectory ++ "/" ++ o.iconsFolderName ≠ dir0) :
    (constantsStageEvents co o svgDefinitions).filter (isWriteAtDir dir0) = [] := by
  rw [List.filter_eq_nil_iff]
  intro e he
  rw [constantsStageEvents] at he
  have hshape : (∃ n c k,
        e = Event.writeFileEv (o.outputDirectory ++ "/" ++ o.iconsFolderName) n c k) ∨
      (∃ m, e = Event.logInfoEv m) := by
    by_cases htsx : o.tsx
    · exact tsxStageEvents_mem_shape co _ _ svgDefinitions e (by simpa [htsx] using he)
    · exact svgStageEvents_mem_shape co _ _ svgDefinitions e (by simpa [htsx] using he)
  rcases hshape with ⟨n, c, k, rfl⟩ | ⟨m, rfl⟩
  · simp [isWriteAtDir, hne]
  · simp [isWriteAtDir]

lemma filter_isWriteAtDir_completeIconSetEvents (co : Collab) (o : FilesConversionOptions)
    (defs2 : List SvgDefinition) (dir0 : String)
    (hne : o.outputDirectory ++ "/" ++ o.iconsFolderName ≠ dir0) :
    (completeIconSetEvents co o defs2).filter (isWriteAtDir dir0) = [] := by
  by_cases hecis : o.exportCompleteIconSet <;>
    simp [completeIconSetEvents, hecis, isWriteAtDir, hne]

lemma filter_isWriteAtDir_compileStageEvents (co : Collab) (o : FilesConversionOptions)
    (dir0 : String) :
    (compileStageEvents co o).filter (isWriteAtDir dir0) = [] := by
  by_cases h1 : o.compilationOutput = SVG_TO_TS_COMPILATION_OUTPUT.ESM
  · simp [compileStageEvents, h1, isWriteAtDir, SVG_TO_TS_COMPILATION_OUTPUT.ESM,
      SVG_TO_TS_COMPILATION_OUTPUT.UMD, SVG_TO_TS_COMPILATION_OUTPUT.ESM_AND_UMD]
  · by_cases h2 : o.compilationOutput = SVG_TO_TS_COMPILATION_OUTPUT.UMD
    · simp [compileStageEvents, h1, h2, isWriteAtDir, SVG_TO_TS_COMPILATION_OUTPUT.ESM,
        SVG_TO_TS_COMPILATION_OUTPUT.UMD, SVG_TO_TS_COMPILATION_OUTPUT.ESM_AND_UMD]
    · by_cases h3 : o.compilationOutput = SVG_TO_TS_COMPILATION_OUTPUT.ESM_AND_UMD
      · simp [compileStageEvents, h1, h2, h3, isWriteAtDir, SVG_TO_TS_COMPILATION_OUTPUT.ESM,
          SVG_TO_TS_COMPILATION_OUTPUT.UMD, SVG_TO_TS_COMPILATION_OUTPUT.ESM_AND_UMD]
      · simp [compileStageEvents, h1, h2, h3, isWriteAtDir]

/-! Section: concrete sample instances used by the witnesses. -/

/-- A concrete collaborator instance: simple string builders standing in for
the external code-snippet generators, and identity glob resolution. -/
def sampleCollab : Collab :=
  ⟨fun v t d => "const " ++ v ++ ": " ++ t ++ " = " ++ d ++ ";",
   fun v d => "tsx " ++ v ++ " " ++ d,
   fun defs n i m g t => "set " ++ n ++ " " ++ i ++ " " ++ m,
   fun i f m => "helper " ++ i ++ " " ++ f ++ " " ++ m ++ ";",
   fun n f => "export " ++ n ++ " from " ++ f ++ ";",
   fun o defs => "typeDef;",
   fun o defs => "enumDef;",
   fun o => "interfaceDef;",
   fun ps => ps⟩

def sampleDef1 : SvgDefinition := ⟨"homeIcon", "HomeType", "home", "nav", "<svg1/>"⟩

def sampleDef2 : SvgDefinition := ⟨"backIcon", "BackType", "back", "nav", "<svg2/>"⟩

def sampleDefs : List SvgDefinition := [sampleDef1, sampleDef2]

/-- A world in which every operation succeeds and ingestion yields the two
sample definitions. -/
def sampleWorld : World := ⟨fun p => true, some sampleDefs, fun d n => true⟩

def sampleOptions : FilesConversionOptions :=
  ⟨"out", "model", "extra", "icons", "Icon", true, true, "completeSet", "ESM_AND_UMD",
    "index", true, false⟩

/-! Section: claim theorems. -/

/-- C1: in a fully successful run the pipeline writes the barrel file, at the
output directory root under the barrel file name, whose content is the
type-helper import built from the interface name, icons folder and model file
name, followed by one export statement (resolved against the icons folder) per
entry of the generated-names sequence — the per-icon names plus the
complete-icon-set name when `exportCompleteIconSet` is enabled — and then,
unconditionally, one export statement for the model file name; and the list of
exported names is, as a set, exactly {per-icon names} ∪ {complete-icon-set
name if enabled} ∪ {model file name}. -/
theorem C1_barrel_file_content (co : Collab) (w : World) (o : FilesConversionOptions)
    (defs : List SvgDefinition)
    (hdf : ∀ p, w.deleteFolderOk p = true)
    (hwf : ∀ d n, w.writeFileOk d n = true)
    (hfp : w.filesProcessorResult = some defs) :
    Event.writeFileEv o.outputDirectory o.barrelFileName
        (co.generateTypeHelperWithImport o.interfaceName o.iconsFolderName o.modelFileName ++
          String.join ((defs.map iconFileName ++
              (if o.exportCompleteIconSet then [o.completeIconSetName] else []) ++
              [o.modelFileName]).map
            (fun n => co.generateExportStatement n o.iconsFolderName)))
        FILE_TYPE.TS ∈ (convertToFiles co w o).1 ∧
      (∀ n, n ∈ defs.map iconFileName ++
            (if o.exportCompleteIconSet then [o.completeIconSetName] else []) ++
            [o.modelFileName] ↔
          n ∈ defs.map iconFileName ∨
            (o.exportCompleteIconSet = true ∧ n = o.completeIconSetName) ∨
            n = o.modelFileName) := by
  constructor
  · have hc : co.generateTypeHelperWithImport o.interfaceName o.iconsFolderName
          o.modelFileName ++
        String.join ((defs.map iconFileName ++
            (if o.exportCompleteIconSet then [o.completeIconSetName] else []) ++
            [o.modelFileName]).map
          (fun n => co.generateExportStatement n o.iconsFolderName)) =
        buildIndexFileContent co (generatedNames o defs) o.interfaceName o.iconsFolderName
          o.modelFileName := by
      rw [buildIndexFileContent_join, generatedNames]
    rw [hc, convertToFiles_allOk co w o defs hdf hwf hfp]
    simp [convertTrace]
  · intro n
    by_cases hecis : o.exportCompleteIconSet <;>
      simp [hecis, List.mem_append, or_assoc] <;> tauto

theorem C1_witness :
    (∀ p, sampleWorld.deleteFolderOk p = true) ∧
    sampleWorld.filesProcessorResult = some sampleDefs ∧
    Event.writeFileEv sampleOptions.outputDirectory sampleOptions.barrelFileName
        (sampleCollab.generateTypeHelperWithImport sampleOptions.interfaceName
            sampleOptions.iconsFolderName sampleOptions.modelFileName ++
          String.join ((sampleDefs.map iconFileName ++
              (if sampleOptions.exportCompleteIconSet then [sampleOptions.completeIconSetName]
                else []) ++ [sampleOptions.modelFileName]).map
            (fun n => sampleCollab.generateExportStatement n sampleOptions.iconsFolderName)))
        FILE_TYPE.TS ∈ (convertToFiles sampleCollab sampleWorld sampleOptions).1 :=
  ⟨fun p => rfl, rfl,
    (C1_barrel_file_content sampleCollab sampleWorld sampleOptions sampleDefs
      (fun p => rfl) (fun d n => rfl) rfl).1⟩

/-- C2: for a non-empty ingested set, the SVG-mode per-icon stage performs
exactly one file write per SvgDefinition — with name
`{prefix}-{filenameWithoutEnding}.icon`, directory
`{outputDirectory}/{iconsFolderName}`, and content built by the constant
generator from the definition's variable name, type name and data — and the
returned generated-names sequence is exactly these names, one per
definition. -/
theorem C2_per_icon_files (co : Collab) (w : World)
    (svgDefinitions : List SvgDefinition) (outputDirectory iconsFolderName : String)
    (hw : ∀ n, w.writeFileOk (outputDirectory ++ "/" ++ iconsFolderName) n = true)
    (hne : svgDefinitions ≠ []) :
    generateSVGConstants co w svgDefinitions outputDirectory iconsFolderName =
      (svgStageEvents co outputDirectory iconsFolderName svgDefinitions,
        some (svgDefinitions.map iconFileName)) ∧
    writeEventsOf (svgStageEvents co outputDirectory iconsFolderName svgDefinitions) =
      svgDefinitions.map (fun d =>
        Event.writeFileEv (outputDirectory ++ "/" ++ iconsFolderName) (iconFileName d)
          (co.generateSvgConstant d.variableName d.typeName d.data) FILE_TYPE.TS) ∧
    (∀ d : SvgDefinition, iconFileName d =
      d.prefixName ++ "-" ++ d.filenameWithoutEnding ++ ".icon") :=
  ⟨generateSVGConstants_ok co w outputDirectory iconsFolderName hw svgDefinitions,
   writeEventsOf_svgStageEvents co outputDirectory iconsFolderName svgDefinitions,
   fun d => rfl⟩

theorem C2_witness :
    (∀ n, sampleWorld.writeFileOk ("out" ++ "/" ++ "icons") n = true) ∧
    sampleDefs ≠ [] ∧
    generateSVGConstants sampleCollab sampleWorld sampleDefs "out" "icons" =
      (svgStageEvents sampleCollab "out" "icons" sampleDefs,
        some (sampleDefs.map iconFileName)) :=
  ⟨fun n => rfl, by decide,
    (C2_per_icon_files sampleCollab sampleWorld sampleDefs "out" "icons"
      (fun n => rfl) (by decide)).1⟩

/-- C3: on the same definitions and folders, the TSX and SVG modes generate
the same generated-file-name list (same `{prefix}-{filenameWithoutEnding}.icon`
strings) and the same number of per-icon writes; the only differences are that
the TSX writes carry the TSX file kind, and their content is generated from
the variable name with its first character uppercased. -/
theorem C3_tsx_svg_same_filenames (co : Collab) (w : World)
    (svgDefinitions : List SvgDefinition) (outputDirectory iconsFolderName : String)
    (hw : ∀ n, w.writeFileOk (outputDirectory ++ "/" ++ iconsFolderName) n = true) :
    (generateSVGConstants co w svgDefinitions outputDirectory iconsFolderName).2 =
      some (svgDefinitions.map iconFileName) ∧
    (generateTSXFileConstants co w svgDefinitions outputDirectory iconsFolderName).2 =
      some (svgDefinitions.map iconFileName, svgDefinitions.map capitalizeDef) ∧
    writeEventsOf (svgStageEvents co outputDirectory iconsFolderName svgDefinitions) =
      svgDefinitions.map (fun d =>
        Event.writeFileEv (outputDirectory ++ "/" ++ iconsFolderName) (iconFileName d)
          (co.generateSvgConstant d.variableName d.typeName d.data) FILE_TYPE.TS) ∧
    writeEventsOf (tsxStageEvents co outputDirectory iconsFolderName svgDefinitions) =
      svgDefinitions.map (fun d =>
        Event.writeFileEv (outputDirectory ++ "/" ++ iconsFolderName) (iconFileName d)
          (co.generateTSXConstant (capitalize d.variableName) d.data) FILE_TYPE.TSX) ∧
    (writeEventsOf (tsxStageEvents co outputDirectory iconsFolderName svgDefinitions)).length =
      (writeEventsOf (svgStageEvents co outputDirectory iconsFolderName
        svgDefinitions)).length := by
  refine ⟨?_, ?_, writeEventsOf_svgStageEvents co outputDirectory iconsFolderName svgDefinitions,
    writeEventsOf_tsxStageEvents co outputDirectory iconsFolderName svgDefinitions, ?_⟩
  · rw [generateSVGConstants_ok co w outputDirectory iconsFolderName hw svgDefinitions]
  · rw [generateTSXFileConstants_ok co w outputDirectory iconsFolderName hw svgDefinitions]
  · rw [writeEventsOf_svgStageEvents, writeEventsOf_tsxStageEvents]
    simp

theorem C3_witness :
    (∀ n, sampleWorld.writeFileOk ("out" ++ "/" ++ "icons") n = true) ∧
    (generateSVGConstants sampleCollab sampleWorld sampleDefs "out" "icons").2 =
      some (sampleDefs.map iconFileName) ∧
    (generateTSXFileConstants sampleCollab sampleWorld sampleDefs "out" "icons").2 =
      some (sampleDefs.map iconFileName, sampleDefs.map capitalizeDef) :=
  ⟨fun n => rfl,
    (C3_tsx_svg_same_filenames sampleCollab sampleWorld sampleDefs "out" "icons"
      (fun n => rfl)).1,
    (C3_tsx_svg_same_filenames sampleCollab sampleWorld sampleDefs "out" "icons"
      (fun n => rfl)).2.1⟩

/-- C4: with compileSources enabled and a compilation-output value that is
none of ESM, UMD, ESM_AND_UMD, the dispatcher emits exactly one error log —
whose text names the three valid values `(ESM, UMD, ESM_AND_UMD)` — performs
no compilation and no deletion, and returns successfully (it does not throw);
under an otherwise fully successful world the pipeline completes with the
success log emitted. -/
theorem C4_invalid_compilation_output (co : Collab) (w : World) (o : FilesConversionOptions)
    (defs : List SvgDefinition)
    (hdf : ∀ p, w.deleteFolderOk p = true)
    (hwf : ∀ d n, w.writeFileOk d n = true)
    (hfp : w.filesProcessorResult = some defs)
    (h1 : o.compilationOutput ≠ SVG_TO_TS_COMPILATION_OUTPUT.ESM)
    (h2 : o.compilationOutput ≠ SVG_TO_TS_COMPILATION_OUTPUT.UMD)
    (h3 : o.compilationOutput ≠ SVG_TO_TS_COMPILATION_OUTPUT.ESM_AND_UMD)
    (hcs : o.compileSources = true) :
    compileTypeScriptToJS co w o.outputDirectory o.iconsFolderName o.barrelFileName
        o.compilationOutput =
      ([Event.logErrorEv (invalidCompilationOutputMessage o.compilationOutput)], some ()) ∧
    invalidCompilationOutputMessage o.compilationOutput =
      "Please provide a valid Compilation output. You provided " ++ o.compilationOutput ++
        " but \n            valid values are (ESM, UMD, ESM_AND_UMD)." ∧
    (convertToFiles co w o).2 = some () ∧
    Event.logSuccessEv o.outputDirectory ∈ (convertToFiles co w o).1 := by
  refine ⟨by simp [compileTypeScriptToJS, h1, h2, h3, emitRes], rfl, ?_, ?_⟩
  · rw [convertToFiles_allOk co w o defs hdf hwf hfp]
  · rw [convertToFiles_allOk co w o defs hdf hwf hfp]
    simp [convertTrace]

theorem C4_witness :
    ("BOGUS" : String) ≠ SVG_TO_TS_COMPILATION_OUTPUT.ESM ∧
    compileTypeScriptToJS sampleCollab sampleWorld "out" "icons" "index" "BOGUS" =
      ([Event.logErrorEv (invalidCompilationOutputMessage "BOGUS")], some ()) := by
  constructor
  · decide
  · have h := C4_invalid_compilation_output sampleCollab sampleWorld
      ⟨"out", "model", "extra", "icons", "Icon", true, true, "completeSet", "BOGUS",
        "index", true, false⟩ sampleDefs
      (fun p => rfl) (fun d n => rfl) rfl (by decide) (by decide) (by decide) rfl
    exact h.1

/-- C5: with compilation-output = ESM_AND_UMD the dispatcher resolves the
generated TypeScript paths (`{outputDirectory}/{iconsFolderName}/*.ts` plus
`{outputDirectory}/{barrelFileName}.ts`), then — in this order — compiles them
to `{outputDirectory}/esm`, compiles them to `{outputDirectory}/umd`, deletes
the resolved original TypeScript sources, and deletes the
`{outputDirectory}/build` folder. -/
theorem C5_esm_and_umd_order (co : Collab) (w : World)
    (outputDirectory iconsFolderName barrelFileName : String)
    (hdf : w.deleteFolderOk (outputDirectory ++ "/build") = true) :
    compileTypeScriptToJS co w outputDirectory iconsFolderName barrelFileName
        SVG_TO_TS_COMPILATION_OUTPUT.ESM_AND_UMD =
      ([Event.compileEsNextEv (co.getFilePathsFromRegex
          [outputDirectory ++ "/" ++ iconsFolderName ++ "/*.ts",
           outputDirectory ++ "/" ++ barrelFileName ++ ".ts"]) (outputDirectory ++ "/esm"),
        Event.compileUMDEv (co.getFilePathsFromRegex
          [outputDirectory ++ "/" ++ iconsFolderName ++ "/*.ts",
           outputDirectory ++ "/" ++ barrelFileName ++ ".ts"]) (outputDirectory ++ "/umd"),
        Event.deleteFilesEv (co.getFilePathsFromRegex
          [outputDirectory ++ "/" ++ iconsFolderName ++ "/*.ts",
           outputDirectory ++ "/" ++ barrelFileName ++ ".ts"]),
        Event.deleteFolderEv (outputDirectory ++ "/build")], some ()) := by
  simp [compileTypeScriptToJS, bindRes, emitRes, deleteFolderOp, hdf,
    SVG_TO_TS_COMPILATION_OUTPUT.ESM, SVG_TO_TS_COMPILATION_OUTPUT.UMD,
    SVG_TO_TS_COMPILATION_OUTPUT.ESM_AND_UMD]

theorem C5_witness :
    sampleWorld.deleteFolderOk ("out" ++ "/build") = true ∧
    compileTypeScriptToJS sampleCollab sampleWorld "out" "icons" "index"
        SVG_TO_TS_COMPILATION_OUTPUT.ESM_AND_UMD =
      ([Event.compileEsNextEv ["out" ++ "/" ++ "icons" ++ "/*.ts",
          "out" ++ "/" ++ "index" ++ ".ts"] ("out" ++ "/esm"),
        Event.compileUMDEv ["out" ++ "/" ++ "icons" ++ "/*.ts",
          "out" ++ "/" ++ "index" ++ ".ts"] ("out" ++ "/umd"),
        Event.deleteFilesEv ["out" ++ "/" ++ "icons" ++ "/*.ts",
          "out" ++ "/" ++ "index" ++ ".ts"],
        Event.deleteFolderEv ("out" ++ "/build")], some ()) :=
  ⟨rfl, C5_esm_and_umd_order sampleCollab sampleWorld "out" "icons" "index" rfl⟩

/-- C6: with a model file name configured, the model-file generator writes
into the icons folder content that is exactly the concatenation of the
type-definition, interface-definition and enum-definition blocks, in that
order, and returns that content; when an additional model output path is
configured it also writes there, and both writes carry the very same content
string (byte-identical). -/
theorem C6_model_file (co : Collab) (w : World) (o : FilesConversionOptions)
    (svgDefinitions : List SvgDefinition)
    (hw : ∀ d n, w.writeFileOk d n = true)
    (hm : o.modelFileName ≠ "") :
    generateModelFile co w o svgDefinitions =
      (modelStageEvents co o svgDefinitions, some (modelFileContent co o svgDefinitions)) ∧
    modelFileContent co o svgDefinitions =
      co.generateTypeDefinition o svgDefinitions ++ co.generateInterfaceDefinition o ++
        co.generateEnumDefinition o svgDefinitions ∧
    (o.additionalModelOutputPath ≠ "" →
      Event.writeFileEv (o.outputDirectory ++ "/" ++ o.iconsFolderName) o.modelFileName
          (modelFileContent co o svgDefinitions) FILE_TYPE.TS ∈
        modelStageEvents co o svgDefinitions ∧
      Event.writeFileEv o.additionalModelOutputPath o.modelFileName
          (modelFileContent co o svgDefinitions) FILE_TYPE.TS ∈
        modelStageEvents co o svgDefinitions) := by
  refine ⟨generateModelFile_ok co w o svgDefinitions hw, rfl, fun ha => ?_⟩
  constructor
  · simp [modelStageEvents]
  · simp [modelStageEvents, ha]

theorem C6_witness :
    (∀ d n, sampleWorld.writeFileOk d n = true) ∧
    sampleOptions.modelFileName ≠ "" ∧
    generateModelFile sampleCollab sampleWorld sampleOptions sampleDefs =
      (modelStageEvents sampleCollab sampleOptions sampleDefs,
        some (modelFileContent sampleCollab sampleOptions sampleDefs)) :=
  ⟨fun d n => rfl, by decide,
    (C6_model_file sampleCollab sampleWorld sampleOptions sampleDefs
      (fun d n => rfl) (by decide)).1⟩

/-- C7: under a fully successful world the pipeline's trace is exactly, in
this fixed order: icons-folder deletion, SVG ingestion, the per-icon writes
(with the complete-icon-set write only when enabled), the barrel write, the
model writes only when a model file name is configured, the compilation block
only when compileSources is enabled, and finally the success log; moreover a
failure aborts all later stages: failure of the initial folder deletion yields
an empty trace and no result, failure of ingestion yields only the deletion
event and no result, and whenever the trace contains the success log, every
stage of the run succeeded. -/
theorem C7_stage_order_and_abort (co : Collab) (w : World) (o : FilesConversionOptions)
    (defs : List SvgDefinition)
    (hdf : ∀ p, w.deleteFolderOk p = true)
    (hwf : ∀ d n, w.writeFileOk d n = true)
    (hfp : w.filesProcessorResult = some defs) :
    convertToFiles co w o = (convertTrace co o defs, some ()) ∧
    (∀ w2 : World,
      w2.deleteFolderOk (o.outputDirectory ++ "/" ++ o.iconsFolderName) = false →
      convertToFiles co w2 o = ([], none)) ∧
    (∀ w2 : World,
      w2.deleteFolderOk (o.outputDirectory ++ "/" ++ o.iconsFolderName) = true →
      w2.filesProcessorResult = none →
      convertToFiles co w2 o =
        ([Event.deleteFolderEv (o.outputDirectory ++ "/" ++ o.iconsFolderName)], none)) ∧
    (∀ w2 : World,
      Event.logSuccessEv o.outputDirectory ∈ (convertToFiles co w2 o).1 →
      (convertToFiles co w2 o).2 = some ()) := by
  refine ⟨convertToFiles_allOk co w o defs hdf hwf hfp, ?_, ?_, ?_⟩
  · intro w2 hb
    simp [convertToFiles, deleteFolderOp, hb, bindRes]
  · intro w2 h1 h2
    simp [convertToFiles, deleteFolderOp, h1, filesProcessorOp, h2, bindRes]
  · intro w2 hmem
    exact convertToFiles_snd_some_of_logSuccess_mem co w2 o o.outputDirectory hmem

theorem C7_witness :
    (∀ p, sampleWorld.deleteFolderOk p = true) ∧
    sampleWorld.filesProcessorResult = some sampleDefs ∧
    convertToFiles sampleCollab sampleWorld sampleOptions =
      (convertTrace sampleCollab sampleOptions sampleDefs, some ()) :=
  ⟨fun p => rfl, rfl,
    (C7_stage_order_and_abort sampleCollab sampleWorld sampleOptions sampleDefs
      (fun p => rfl) (fun d n => rfl) rfl).1⟩

/-- C8: if the pipeline reaches the barrel write (a barrel write event is in
the trace), then ingestion succeeded, the trace up to the barrel write is
exactly the deletion, the ingestion, all per-icon write events and the
optional complete-icon-set write, and every name in the generated-names
sequence exported by the barrel has a successful write event, into the icons
output folder, among those pre-barrel events. -/
theorem C8_names_written_before_barrel (co : Collab) (w : World)
    (o : FilesConversionOptions) (c : String) (k : FILE_TYPE)
    (h : Event.writeFileEv o.outputDirectory o.barrelFileName c k ∈
      (convertToFiles co w o).1) :
    ∃ defs, w.filesProcessorResult = some defs ∧
      (convertToFiles co w o).1 =
        Event.deleteFolderEv (o.outputDirectory ++ "/" ++ o.iconsFolderName) ::
          Event.processSvgsEv ::
          (constantsStageEvents co o defs ++
            (completeIconSetEvents co o (defsAfterConstantStage o defs) ++
              Event.writeFileEv o.outputDirectory o.barrelFileName
                (buildIndexFileContent co (generatedNames o defs) o.interfaceName
                  o.iconsFolderName o.modelFileName) FILE_TYPE.TS ::
                (afterBarrelRes co w o (defsAfterConstantStage o defs)).1)) ∧
      ∀ n ∈ generatedNames o defs, ∃ c2 k2,
        Event.writeFileEv (o.outputDirectory ++ "/" ++ o.iconsFolderName) n c2 k2 ∈
          constantsStageEvents co o defs ++
            completeIconSetEvents co o (defsAfterConstantStage o defs) := by
  obtain ⟨defs, h1, h2⟩ := convertToFiles_barrel_reached co w o c k h
  exact ⟨defs, h1, h2, fun n hn => generatedNames_write_exists co o defs n hn⟩

theorem C8_witness :
    Event.writeFileEv sampleOptions.outputDirectory sampleOptions.barrelFileName
        (buildIndexFileContent sampleCollab (generatedNames sampleOptions sampleDefs)
          sampleOptions.interfaceName sampleOptions.iconsFolderName
          sampleOptions.modelFileName) FILE_TYPE.TS ∈
      (convertToFiles sampleCollab sampleWorld sampleOptions).1 ∧
    (∃ defs, sampleWorld.filesProcessorResult = some defs ∧
      ∀ n ∈ generatedNames sampleOptions defs, ∃ c2 k2,
        Event.writeFileEv (sampleOptions.outputDirectory ++ "/" ++
            sampleOptions.iconsFolderName) n c2 k2 ∈
          constantsStageEvents sampleCollab sampleOptions defs ++
            completeIconSetEvents sampleCollab sampleOptions
              (defsAfterConstantStage sampleOptions defs)) := by
  constructor
  · decide
  · obtain ⟨defs, h1, -, h3⟩ := C8_names_written_before_barrel sampleCollab sampleWorld
      sampleOptions (buildIndexFileContent sampleCollab
        (generatedNames sampleOptions sampleDefs) sampleOptions.interfaceName
        sampleOptions.iconsFolderName sampleOptions.modelFileName) FILE_TYPE.TS (by decide)
    exact ⟨defs, h1, h3⟩

/-- C9: the only record change anywhere in the pipeline is on the TSX path:
the TSX stage hands every later stage the definition with its variableName
replaced by the same string with the first character uppercased and the rest
unchanged, and with every other field (typeName, filenameWithoutEnding,
prefix, data) identical, and its generated content is produced from the
capitalized variable name; on the SVG (non-TSX) path the definition list
reaching every later stage is exactly the ingested one, every field
unchanged. -/
theorem C9_mutation_only_on_tsx_path (co : Collab) (w : World)
    (svgDefinitions : List SvgDefinition) (outputDirectory iconsFolderName : String)
    (hw : ∀ n, w.writeFileOk (outputDirectory ++ "/" ++ iconsFolderName) n = true) :
    generateTSXFileConstants co w svgDefinitions outputDirectory iconsFolderName =
      (tsxStageEvents co outputDirectory iconsFolderName svgDefinitions,
        some (svgDefinitions.map iconFileName, svgDefinitions.map capitalizeDef)) ∧
    (∀ d : SvgDefinition,
      (capitalizeDef d).variableName = capitalize d.variableName ∧
      (capitalizeDef d).typeName = d.typeName ∧
      (capitalizeDef d).filenameWithoutEnding = d.filenameWithoutEnding ∧
      (capitalizeDef d).prefixName = d.prefixName ∧
      (capitalizeDef d).data = d.data) ∧
    (∀ (ch : Char) (cs : List Char),
      capitalize (String.mk (ch :: cs)) = String.mk (Char.toUpper ch :: cs)) ∧
    (∀ o : FilesConversionOptions, o.tsx = false →
      defsAfterConstantStage o svgDefinitions = svgDefinitions) ∧
    (∀ o : FilesConversionOptions, o.tsx = true →
      defsAfterConstantStage o svgDefinitions = svgDefinitions.map capitalizeDef) := by
  refine ⟨generateTSXFileConstants_ok co w outputDirectory iconsFolderName hw svgDefinitions,
    fun d => ⟨rfl, rfl, rfl, rfl, rfl⟩, fun ch cs => rfl, ?_, ?_⟩
  · intro o ho
    simp [defsAfterConstantStage, ho]
  · intro o ho
    simp [defsAfterConstantStage, ho]

theorem C9_witness :
    (∀ n, sampleWorld.writeFileOk ("out" ++ "/" ++ "icons") n = true) ∧
    generateTSXFileConstants sampleCollab sampleWorld sampleDefs "out" "icons" =
      (tsxStageEvents sampleCollab "out" "icons" sampleDefs,
        some (sampleDefs.map iconFileName, sampleDefs.map capitalizeDef)) :=
  ⟨fun n => rfl,
    (C9_mutation_only_on_tsx_path sampleCollab sampleWorld sampleDefs "out" "icons"
      (fun n => rfl)).1⟩

/-- C10: when a model file name and an additional model output path are both
configured (and the additional path differs from the output directory and
from the icons folder path), a fully successful run writes to the additional
output path exactly twice — once inside the model-file generator and once
more by the orchestrator — and the two write events are identical: same
directory, same file name, byte-identical model content, same file kind. -/
theorem C10_additional_path_written_twice (co : Collab) (w : World)
    (o : FilesConversionOptions) (defs : List SvgDefinition)
    (hdf : ∀ p, w.deleteFolderOk p = true)
    (hwf : ∀ d n, w.writeFileOk d n = true)
    (hfp : w.filesProcessorResult = some defs)
    (hm : o.modelFileName ≠ "")
    (ha : o.additionalModelOutputPath ≠ "")
    (hne1 : o.outputDirectory ≠ o.additionalModelOutputPath)
    (hne2 : o.outputDirectory ++ "/" ++ o.iconsFolderName ≠ o.additionalModelOutputPath) :
    (convertToFiles co w o).1.filter (isWriteAtDir o.additionalModelOutputPath) =
      [Event.writeFileEv o.additionalModelOutputPath o.modelFileName
         (modelFileContent co o (defsAfterConstantStage o defs)) FILE_TYPE.TS,
       Event.writeFileEv o.additionalModelOutputPath o.modelFileName
         (modelFileContent co o (defsAfterConstantStage o defs)) FILE_TYPE.TS] := by
  rw [convertToFiles_allOk co w o defs hdf hwf hfp]
  by_cases hcs : o.compileSources <;>
    simp [convertTrace, List.filter_append,
      filter_isWriteAtDir_constantsStage co o defs _ hne2,
      filter_isWriteAtDir_completeIconSetEvents co o _ _ hne2,
      filter_isWriteAtDir_compileStageEvents, compileBlockEvents, hcs,
      modelBlockEvents, modelStageEvents, hm, ha, isWriteAtDir, hne1, hne2]

theorem C10_witness :
    sampleOptions.modelFileName ≠ "" ∧
    sampleOptions.additionalModelOutputPath ≠ "" ∧
    (convertToFiles sampleCollab sampleWorld sampleOptions).1.filter
        (isWriteAtDir sampleOptions.additionalModelOutputPath) =
      [Event.writeFileEv sampleOptions.additionalModelOutputPath sampleOptions.modelFileName
         (modelFileContent sampleCollab sampleOptions
           (defsAfterConstantStage sampleOptions sampleDefs)) FILE_TYPE.TS,
       Event.writeFileEv sampleOptions.additionalModelOutputPath sampleOptions.modelFileName
         (modelFileContent sampleCollab sampleOptions
           (defsAfterConstantStage sampleOptions sampleDefs)) FILE_TYPE.TS] :=
  ⟨by decide, by decide,
    C10_additional_path_written_twice sampleCollab sampleWorld sampleOptions sampleDefs
      (fun p => rfl) (fun d n => rfl) rfl (by decide) (by decide) (by decide) (by decide)⟩
